import Mathlib

/-!
# Verification of the native-image report and comparison engine

This file is a shallow embedding of `src/features/reports.ts`, the metrics
report and comparison engine of the repository, together with theorems that
settle the specification claims about it.

## Modelling conventions

* JavaScript numbers are modelled exactly by the type `JsVal`, an unreduced
  fraction `num / den` with `num : ℤ` and `den : ℕ`.  A zero denominator
  encodes the three non-finite IEEE values exactly as they arise in
  JavaScript from division by (positive) zero: `num > 0` is `Infinity`,
  `num < 0` is `-Infinity`, and `num = 0` is `NaN`.  All arithmetic used by
  the source (division, multiplication, subtraction, absolute value,
  comparison, truncation, `toFixed`) is defined on `JsVal` below, following
  the ECMAScript semantics on exact values.  Finite values are related to
  `ℚ` by `JsVal.toRat`; rounding of intermediate results to binary64
  doubles is not modelled (the embedding computes with exact rationals), so
  behaviour that depends on a ratio landing within one double ulp of a
  classification bound is outside the model.
* `Number.prototype.toFixed(f)` is modelled by `jsToFixed` using the
  ECMAScript algorithm: for a finite value, an optional sign for negative
  inputs followed by the decimal digits of the integer `n` minimising
  `|n / 10^f − |x||` (ties to the larger `n`), with a decimal point before
  the last `f` digits; non-finite values render as `Infinity`,
  `-Infinity` or `NaN`.
* `Number.prototype.toLocaleString()` on integral values is modelled with
  en-US grouping (a comma every three digits), the locale used in the CI
  environments the action targets.
* Strings absent at runtime (`undefined` / `null` inside a template
  literal) render as the literals `undefined` / `null`, as in JavaScript.
* Effectful code (`generateReports`) is modelled as a pure function from an
  environment record (action inputs, file presence, parsed file contents,
  run context) to the list of performed effects; a thrown `TypeError`
  (member access on `undefined`) is modelled by an explicit `crashed` flag
  carried next to the effects performed before the throw.
-/

/-- An exact JavaScript number: the fraction `num / den`.  `den = 0` encodes
the non-finite values (`Infinity` for `num > 0`, `-Infinity` for `num < 0`,
`NaN` for `num = 0`), which in the source only arise from division by zero. -/
structure JsVal where
  num : ℤ
  den : ℕ
  deriving DecidableEq, Repr

namespace JsVal

/-- Embed an integer as a JavaScript number. -/
def ofInt (n : ℤ) : JsVal := ⟨n, 1⟩

instance : OfNat JsVal n := ⟨ofInt n⟩

instance : IntCast JsVal := ⟨ofInt⟩

/-- The rational value of a finite `JsVal` (junk 0 when `den = 0`). -/
def toRat (x : JsVal) : ℚ := (x.num : ℚ) / (x.den : ℚ)

/-- Is the value `NaN` (the only JavaScript number that is not equal to
itself)?  In this embedding: `0 / 0`. -/
def isNaN (x : JsVal) : Bool := x.num = 0 && x.den = 0

/-- JavaScript division.  For finite operands this is exact fraction
division with the sign moved into the numerator; a zero divisor produces
`±Infinity`/`NaN` exactly as IEEE-754 division by positive zero does. -/
def div (a b : JsVal) : JsVal :=
  if b.num < 0 then ⟨-(a.num * b.den), a.den * b.num.natAbs⟩
  else ⟨a.num * b.den, a.den * b.num.natAbs⟩

/-- JavaScript multiplication on exact values. -/
def mul (a b : JsVal) : JsVal := ⟨a.num * b.num, a.den * b.den⟩

/-- JavaScript subtraction on exact values. -/
def sub (a b : JsVal) : JsVal := ⟨a.num * b.den - b.num * a.den, a.den * b.den⟩

/-- `Math.abs`. -/
def abs (a : JsVal) : JsVal := ⟨|a.num|, a.den⟩

/-- JavaScript `<`.  Comparisons involving `NaN` are false; otherwise the
fraction order (denominators are non-negative by construction). -/
def lt (a b : JsVal) : Bool :=
  if a.isNaN || b.isNaN then false
  else if a.den = 0 && b.den = 0 then decide (a.num < 0 ∧ 0 < b.num)
  else decide (a.num * b.den < b.num * a.den)

/-- JavaScript `Math.trunc` (here only ever applied to finite values):
integer division truncating towards zero. -/
def trunc (a : JsVal) : ℤ := a.num.tdiv a.den

/-- JavaScript `%` (remainder with the sign of the dividend):
`a - b * trunc(a / b)`. -/
def mod (a b : JsVal) : JsVal := sub a (mul b (ofInt (trunc (div a b))))

/-- JavaScript truthiness of a number: everything but `0` and `NaN`
(both have `num = 0` here). -/
def truthy (a : JsVal) : Bool := a.num ≠ 0

end JsVal

/-- The decimal digits (en-US, no grouping) of a natural number `n`,
as produced for the integer part of `toFixed`. -/
def natDigits (n : ℕ) : List Char := (Nat.repr n).data

/-- Magnitude part of the ECMAScript `toFixed` algorithm for a finite
non-negative fraction `n / d` (`d ≠ 0`) and `f` requested decimals:
the digits of the integer nearest to `(n / d) * 10^f` (ties towards the
larger integer, computed as `⌊(n / d) * 10^f + 1/2⌋` by natural division),
with a decimal point inserted before the last `f` digits when `f > 0`. -/
def jsToFixedMagCore (n d : ℕ) (f : ℕ) : List Char :=
  let r : ℕ := (n * 10 ^ f * 2 + d) / (2 * d)
  if f = 0 then natDigits r
  else
    let ds := natDigits r
    let ds := if ds.length < f + 1 then List.replicate (f + 1 - ds.length) '0' ++ ds else ds
    ds.take (ds.length - f) ++ '.' :: ds.drop (ds.length - f)

/-- `Number.prototype.toFixed(f)`, on the exact value model. -/
def jsToFixed (x : JsVal) (f : ℕ) : String :=
  if x.den = 0 then
    if 0 < x.num then "Infinity" else if x.num < 0 then "-Infinity" else "NaN"
  else
    (if x.num < 0 then "-" else "") ++ String.mk (jsToFixedMagCore x.num.natAbs x.den f)

/-- Insert en-US thousands separators into a reversed digit list
(a comma before every position that is a positive multiple of 3). -/
def groupRevDigits : List Char → ℕ → List Char
  | [], _ => []
  | c :: rest, k =>
    if k % 3 = 0 ∧ k ≠ 0 then ',' :: c :: groupRevDigits rest (k + 1)
    else c :: groupRevDigits rest (k + 1)

/-- `Number.prototype.toLocaleString()` for an integer, with en-US
grouping. -/
def jsToLocaleString (n : ℤ) : String :=
  (if n < 0 then "-" else "") ++
    String.mk ((groupRevDigits (natDigits n.natAbs).reverse 0).reverse)

/-- Rendering of an integer inside a template literal (`${n}`). -/
def jsIntRepr (n : ℤ) : String := toString n

/-- Rendering of a `JsVal` inside a template literal.  Faithful for
integral values (the only values the claims evaluate); the decimal
shortest-round-trip notation JavaScript uses for non-integral doubles is
not modelled and is rendered here as an explicit fraction. -/
def jsNumRepr (v : JsVal) : String :=
  if v.den = 0 then
    if 0 < v.num then "Infinity" else if v.num < 0 then "-Infinity" else "NaN"
  else if v.den = 1 then toString v.num
  else toString v.num ++ "/" ++ toString v.den

/-- Rendering of an optional string inside a template literal:
`undefined` when absent, as in JavaScript. -/
def jsOptStr (o : Option String) : String := o.getD "undefined"

/-- Rendering of a nullable string inside a template literal:
`null` when absent, as in JavaScript. -/
def jsNullStr (o : Option String) : String := o.getD "null"

/-- `String.prototype.toLowerCase()`. -/
def jsToLowerCase (s : String) : String := String.mk (s.data.map Char.toLower)

/-- `pat` is a prefix of `l` (over characters). -/
def listHasPrefix : List Char → List Char → Bool
  | [], _ => true
  | _ :: _, [] => false
  | p :: ps, c :: cs => p == c && listHasPrefix ps cs

/-- `pat` occurs as a contiguous sublist of `l`. -/
def listHasSub (pat : List Char) : List Char → Bool
  | [] => listHasPrefix pat []
  | c :: rest => listHasPrefix pat (c :: rest) || listHasSub pat rest

/-- `pat` occurs as a contiguous substring of `s`
(`String.prototype.includes`). -/
def strHasSub (s pat : String) : Bool := listHasSub pat.data s.data

/-! ## Data model (`reports.ts` lines 32–102)

Byte counts and element counts coming from the build-output JSON are
integers and are modelled as `ℤ`; the two genuinely fractional quantities
(`cpu.load` and garbage-collection/total seconds) are modelled as `JsVal`.
Optional JSON fields are `Option`s. -/

/-- Shorthand for injecting an integral field into JavaScript-number
arithmetic. -/
def jsNum (n : ℤ) : JsVal := JsVal.ofInt n

structure AnalysisResult where
  total : ℤ
  reachable : ℤ
  reflection : ℤ
  jni : ℤ
  deriving DecidableEq, Repr

structure GraalCompiler where
  optimization_level : String
  march : String
  pgo : Option (List String)
  deriving DecidableEq, Repr

structure GeneralInfo where
  name : String
  graalvm_version : String
  java_version : Option String
  vendor_version : Option String
  c_compiler : Option String
  garbage_collector : String
  graal_compiler : Option GraalCompiler
  deriving DecidableEq, Repr

structure analysisResults where
  classes : AnalysisResult
  types : Option AnalysisResult
  fields : AnalysisResult
  methods : AnalysisResult
  deriving DecidableEq, Repr

structure CodeArea where
  bytes : ℤ
  compilation_units : ℤ
  deriving DecidableEq, Repr

structure HeapObjects where
  count : ℤ
  deriving DecidableEq, Repr

structure HeapResources where
  count : ℤ
  bytes : ℤ
  deriving DecidableEq, Repr

structure ImageHeap where
  bytes : ℤ
  objects : Option HeapObjects
  resources : HeapResources
  deriving DecidableEq, Repr

structure DebugInfo where
  bytes : ℤ
  deriving DecidableEq, Repr

structure RuntimeCompiledMethods where
  count : ℤ
  graph_encoding_bytes : ℤ
  deriving DecidableEq, Repr

structure ImageDetails where
  total_bytes : ℤ
  code_area : CodeArea
  image_heap : ImageHeap
  debug_info : Option DebugInfo
  runtime_compiled_methods : Option RuntimeCompiledMethods
  deriving DecidableEq, Repr

structure Cpu where
  load : JsVal
  total_cores : ℤ
  deriving DecidableEq, Repr

structure GarbageCollection where
  count : ℤ
  total_secs : JsVal
  deriving DecidableEq, Repr

structure MemoryUsage where
  system_total : ℤ
  peak_rss_bytes : ℤ
  deriving DecidableEq, Repr

structure ResourceUsage where
  cpu : Cpu
  garbage_collection : GarbageCollection
  memory : MemoryUsage
  total_secs : Option JsVal
  deriving DecidableEq, Repr

structure BuildOutput where
  general_info : GeneralInfo
  analysis_results : analysisResults
  image_details : ImageDetails
  resource_usage : ResourceUsage
  deriving DecidableEq, Repr

/-- JavaScript truthiness of an optional string (`undefined` and `""` are
falsy). -/
def jsStrTruthy (o : Option String) : Bool :=
  match o with
  | none => false
  | some s => s ≠ ""

/-- JavaScript truthiness of an optional number (`undefined`, `0` and `NaN`
are falsy; both `0` and `NaN` have a zero numerator in this model). -/
def jsValTruthy (o : Option JsVal) : Bool :=
  match o with
  | none => false
  | some v => v.truthy

/-! ## Derivation layer (`reports.ts` lines 17–19, 333–335, 726–756) -/

def BYTES_TO_KiB : JsVal := JsVal.ofInt 1024

def BYTES_TO_MiB : JsVal := JsVal.ofInt (1024 * 1024)

def BYTES_TO_GiB : JsVal := JsVal.ofInt (1024 * 1024 * 1024)

def DOCS_BASE : String :=
  "https://github.com/oracle/graal/blob/master/docs/reference-manual/native-image/BuildOutput.md"

/-- `toPercent` (line 726): `((part / total) * 100).toFixed(3)` followed by
`%`. -/
def toPercent (part total : JsVal) : String :=
  jsToFixed (JsVal.mul (JsVal.div part total) (JsVal.ofInt 100)) 3 ++ "%"

/-- `getDiffPercent` (line 730): sign `-` exactly when `recentValue <
baseValue`, then `(Math.abs(recentValue - baseValue) / baseValue *
100).toFixed(3)` and `%`. -/
def getDiffPercent (baseValue recentValue : JsVal) : String :=
  (if JsVal.lt recentValue baseValue then "-" else "+") ++
    jsToFixed
      (JsVal.mul (JsVal.div (JsVal.abs (JsVal.sub recentValue baseValue)) baseValue)
        (JsVal.ofInt 100)) 3 ++ "%"

/-- `bytesToHuman` (line 738). -/
def bytesToHuman (bytes : JsVal) : String :=
  if JsVal.lt (JsVal.abs bytes) BYTES_TO_KiB then jsToFixed bytes 2 ++ "B"
  else if JsVal.lt (JsVal.abs bytes) BYTES_TO_MiB then
    jsToFixed (JsVal.div bytes BYTES_TO_KiB) 2 ++ "KB"
  else if JsVal.lt (JsVal.abs bytes) BYTES_TO_GiB then
    jsToFixed (JsVal.div bytes BYTES_TO_MiB) 2 ++ "MB"
  else jsToFixed (JsVal.div bytes BYTES_TO_GiB) 2 ++ "GB"

/-- `secondsToHuman` (line 750). -/
def secondsToHuman (seconds : JsVal) : String :=
  if JsVal.lt seconds (JsVal.ofInt 60) then jsToFixed seconds 1 ++ "s"
  else
    jsIntRepr (JsVal.trunc (JsVal.div seconds (JsVal.ofInt 60))) ++ "m " ++
      jsIntRepr (JsVal.trunc (JsVal.mod seconds (JsVal.ofInt 60))) ++ "s"

/-- `normalizeValue` (line 333): `((value / baseValue) * 100).toFixed(0)`. -/
def normalizeValue (value baseValue : JsVal) : String :=
  jsToFixed (JsVal.mul (JsVal.div value baseValue) (JsVal.ofInt 100)) 0

/-! ## Threshold classifier (`reports.ts` lines 678–724)

Each of the three `getCompareColumn*` functions renders one table cell
made of three lines, at most one of which is non-empty: the template
`<td align="left">\n${cond1 ? … : ''}\n${cond2 ? … : ''}\n${cond3 ? … :
''}\n</td>` is embedded as `compareCellShell` applied to the three
conditional lines.  `ratioVal` is the expression
`(value / compareValue) * 100` that all three conditions recompute. -/

def compareCellShell (line1 line2 line3 : String) : String :=
  "<td align=\"left\">\n" ++ line1 ++ "\n" ++ line2 ++ "\n" ++ line3 ++ "\n</td>"

/-- A marked line: marker, payload, marker separated by spaces. -/
def markedLine (m payload : String) : String := m ++ " " ++ payload ++ " " ++ m

/-- `(value / compareValue) * 100`. -/
def ratioVal (value compareValue : JsVal) : JsVal :=
  JsVal.mul (JsVal.div value compareValue) (JsVal.ofInt 100)

/-- `getCompareColumnTime` (line 678): payload
`${(value - compareValue).toFixed(2)}s (${getDiffPercent(compareValue,
value)})`. -/
def getCompareColumnTime (value : JsVal) (compareValue : Option JsVal)
    (lowerPercentageBoarder higherPercentageBoarder : JsVal)
    (smallIsPositive : Bool := true) : String :=
  match compareValue with
  | none => ""
  | some cv =>
    let payload := jsToFixed (JsVal.sub value cv) 2 ++ "s (" ++ getDiffPercent cv value ++ ")"
    let lowMark := if smallIsPositive then ":green_circle:" else ":red_circle:"
    let highMark := if smallIsPositive then ":red_circle:" else ":green_circle:"
    compareCellShell
      (if JsVal.lt (ratioVal value cv) lowerPercentageBoarder then
        markedLine lowMark payload else "")
      (if JsVal.lt lowerPercentageBoarder (ratioVal value cv) &&
          JsVal.lt (ratioVal value cv) higherPercentageBoarder then payload else "")
      (if JsVal.lt higherPercentageBoarder (ratioVal value cv) then
        markedLine highMark payload else "")

/-- `getCompareColumnBytes` (line 694): payload
`${bytesToHuman(value - compareValue)} (${getDiffPercent(compareValue,
value)})`. -/
def getCompareColumnBytes (value : JsVal) (compareValue : Option JsVal)
    (lowerPercentageBoarder higherPercentageBoarder : JsVal)
    (smallIsPositive : Bool := true) : String :=
  match compareValue with
  | none => ""
  | some cv =>
    let payload := bytesToHuman (JsVal.sub value cv) ++ " (" ++ getDiffPercent cv value ++ ")"
    let lowMark := if smallIsPositive then ":green_circle:" else ":red_circle:"
    let highMark := if smallIsPositive then ":red_circle:" else ":green_circle:"
    compareCellShell
      (if JsVal.lt (ratioVal value cv) lowerPercentageBoarder then
        markedLine lowMark payload else "")
      (if JsVal.lt lowerPercentageBoarder (ratioVal value cv) &&
          JsVal.lt (ratioVal value cv) higherPercentageBoarder then payload else "")
      (if JsVal.lt higherPercentageBoarder (ratioVal value cv) then
        markedLine highMark payload else "")

/-- `getCompareColumn` (line 710): payload
`${(value - compareValue).toFixed(2)} (${getDiffPercent(compareValue,
value)})`. -/
def getCompareColumn (value : JsVal) (compareValue : Option JsVal)
    (lowerPercentageBoarder higherPercentageBoarder : JsVal)
    (smallIsPositive : Bool := true) : String :=
  match compareValue with
  | none => ""
  | some cv =>
    let payload := jsToFixed (JsVal.sub value cv) 2 ++ " (" ++ getDiffPercent cv value ++ ")"
    let lowMark := if smallIsPositive then ":green_circle:" else ":red_circle:"
    let highMark := if smallIsPositive then ":red_circle:" else ":green_circle:"
    compareCellShell
      (if JsVal.lt (ratioVal value cv) lowerPercentageBoarder then
        markedLine lowMark payload else "")
      (if JsVal.lt lowerPercentageBoarder (ratioVal value cv) &&
          JsVal.lt (ratioVal value cv) higherPercentageBoarder then payload else "")
      (if JsVal.lt higherPercentageBoarder (ratioVal value cv) then
        markedLine highMark payload else "")

/-! ## Section renderers (`reports.ts` lines 391–676)

The template literals of the source are embedded as explicit
concatenations; `${x ? y : ''}` conditionals become `match`/`if`
expressions and the repeated per-row groups of `getAnalysisTable` and the
compare cells are factored into row/cell helpers whose concatenation
reproduces the template text verbatim. -/

def getFooter : String :=
  "<em>Report generated by <a href=\"https://github.com/marketplace/actions/github-action-for-graalvm\" target=\"_blank\">setup-graalvm</a>.</em>"

/-- `getCompareTableHeader` (line 673): empty for a `null` branch. -/
def getCompareTableHeader (compareBranch : Option String) : String :=
  match compareBranch with
  | none => ""
  | some cb => "<th align=\"left\">Compared to <i>" ++ cb ++ "</i></th>"

/-- `getResourcesUsageHeader` (line 657). -/
def getResourcesUsageHeader (compareBranch : Option String) : String :=
  match compareBranch with
  | none => ""
  | some _ =>
    "<thead>\n    <tr>\n      <th align=\"left\">Category</th>\n      <th align=\"right\">Resources</th>" ++
      getCompareTableHeader compareBranch ++ "\n    </tr>\n  </thead>"

/-- `getDebugInfoLine` (line 391). -/
def getDebugInfoLine (details : ImageDetails) (debugInfoBytes : ℤ) : String :=
  match details.debug_info with
  | some _ =>
    "\n    <tr>\n      <td align=\"left\"><a href=\"" ++ DOCS_BASE ++
      "#glossary-debug-info\" target=\"_blank\">Debug info</a></td>\n      <td align=\"right\">" ++
      bytesToHuman (jsNum debugInfoBytes) ++ "</td>\n      <td align=\"right\">" ++
      toPercent (jsNum debugInfoBytes) (jsNum details.total_bytes) ++
      "</td>\n      <td align=\"left\"></td>\n    </tr>"
  | none => ""

/-- `getVersionLine` (line 404), branching on the truthiness of
`vendor_version`. -/
def getVersionLine (info : GeneralInfo) : String :=
  if jsStrTruthy info.vendor_version then
    "\n    <tr>\n      <td><a href=\"" ++ DOCS_BASE ++
      "#glossary-java-info\" target=\"_blank\">Java version</a></td>\n      <td>" ++
      jsNullStr info.java_version ++ "</td>\n      <td><a href=\"" ++ DOCS_BASE ++
      "#glossary-java-info\" target=\"_blank\">Vendor version</a></td>\n      <td>" ++
      jsOptStr info.vendor_version ++ "</td>\n    </tr>"
  else
    "\n  <tr>\n    <td><a href=\"" ++ DOCS_BASE ++
      "#glossary-version-info\" target=\"_blank\">GraalVM version</a></td>\n    <td>" ++
      info.graalvm_version ++ "</td>\n    <td><a href=\"" ++ DOCS_BASE ++
      "#glossary-java-version-info\" target=\"_blank\">Java version</a></td>\n    <td>" ++
      jsNullStr info.java_version ++ "</td>\n  </tr>"

/-- `getGraalLine` (line 423). -/
def getGraalLine (info : GeneralInfo) : String :=
  match info.graal_compiler with
  | some gc =>
    let isOracleGraalVM : Bool :=
      jsStrTruthy info.vendor_version &&
        strHasSub (jsOptStr info.vendor_version) "Oracle GraalVM"
    let pgoSuffix :=
      if isOracleGraalVM then
        let pgoText :=
          match gc.pgo with
          | some l => String.intercalate "+" l
          | none => "off"
        ", <a href=\"" ++ DOCS_BASE ++ "#recommendation-pgo\" target=\"_blank\">PGO</a>: " ++ pgoText
      else ""
    "\n    <tr>\n      <td align=\"left\"><a href=\"" ++ DOCS_BASE ++
      "#glossary-graal-compiler\" target=\"_blank\">Graal compiler</a></td>\n      <td colspan=\"3\">\n        optimization level: " ++
      gc.optimization_level ++ ",\n        target machine: " ++ gc.march ++ pgoSuffix ++
      "\n      </td>\n    </tr>"
  | none => ""

/-- `getTotalTime` (line 445); `resources.total_secs` is tested for
truthiness. -/
def getTotalTime (resources : ResourceUsage) : String :=
  match resources.total_secs with
  | some t => if t.truthy then " in " ++ secondsToHuman t else ""
  | none => ""

/-- `getTotalTimeRatio` (line 452). -/
def getTotalTimeRatio (resources : ResourceUsage) : String :=
  match resources.total_secs with
  | some t =>
    if t.truthy then
      " (" ++ toPercent resources.garbage_collection.total_secs t ++ " of total time)"
    else ""
  | none => ""

/-- The run context consumed by `getReportHeader` (line 462):
`context.job`, `context.serverUrl`, `context.repo.owner`,
`context.repo.repo`, `context.runId`, `context.runNumber`. -/
structure GitHubContext where
  job : String
  serverUrl : String
  repoOwner : String
  repoName : String
  runId : ℤ
  runNumber : ℤ
  deriving DecidableEq, Repr

/-- `getReportHeader` (line 462). -/
def getReportHeader (info : GeneralInfo) (totalTime : String) (context : GitHubContext) : String :=
  "## GraalVM Native Image Build Report\n\n`" ++ info.name ++ "` generated" ++ totalTime ++
    " as part of the '" ++ context.job ++ "' job in run <a href=\"" ++ context.serverUrl ++
    "/" ++ context.repoOwner ++ "/" ++ context.repoName ++ "/actions/runs/" ++
    jsIntRepr context.runId ++ "\" target=\"_blank\">#" ++ jsIntRepr context.runNumber ++
    "</a>.\n"

/-- `getEnvironmentTable` (line 473). -/
def getEnvironmentTable (versionLine graalLine : String) (info : GeneralInfo) : String :=
  "#### Environment\n\n<table>" ++ versionLine ++ graalLine ++
    "\n  <tr>\n    <td><a href=\"" ++ DOCS_BASE ++
    "#glossary-ccompiler\" target=\"_blank\">C compiler</a></td>\n    <td colspan=\"3\">" ++
    jsNullStr info.c_compiler ++ "</td>\n  </tr>\n  <tr>\n    <td><a href=\"" ++ DOCS_BASE ++
    "#glossary-gc\" target=\"_blank\">Garbage collector</a></td>\n    <td colspan=\"3\">" ++
    info.garbage_collector ++ "</td>\n  </tr>\n</table>\n"

/-- A compare cell of `getAnalysisTable`:
`${c !== null ? getCompareColumn(v, c.field, 98, 108) : ''}` (the `Option`
argument already carries the selected field). -/
def analysisCmpCell (v : ℤ) (copt : Option ℤ) : String :=
  match copt with
  | none => ""
  | some cv => getCompareColumn (jsNum v) (some (jsNum cv)) 98 108

/-- One of the Reachable/Reflection/JNI rows of `getAnalysisTable`
(lines 505–558): values and totals for the Types, Fields and Methods
columns, plus the selected compare values. -/
def analysisValueRow (anchor label : String) (tv tt fv ft mv mt : ℤ)
    (cT cF cM : Option ℤ) : String :=
  "    <tr>\n      <td align=\"left\"><a href=\"" ++ DOCS_BASE ++ anchor ++
    "\" target=\"_blank\">" ++ label ++ "</a></td>\n      <td align=\"right\">" ++
    jsToLocaleString tv ++ "</td>\n      <td align=\"right\">" ++
    toPercent (jsNum tv) (jsNum tt) ++ "</td>" ++ analysisCmpCell tv cT ++
    "\n      <td align=\"right\">" ++ jsToLocaleString fv ++
    "</td>\n      <td align=\"right\">" ++ toPercent (jsNum fv) (jsNum ft) ++ "</td>" ++
    analysisCmpCell fv cF ++ "\n      <td align=\"right\">" ++ jsToLocaleString mv ++
    "</td>\n      <td align=\"right\">" ++ toPercent (jsNum mv) (jsNum mt) ++ "</td>" ++
    analysisCmpCell mv cM ++ "\n    </tr>\n"

/-- The final Loaded row of `getAnalysisTable` (lines 559–567): the percent
cells are the literal `100.000%`. -/
def analysisLoadedRow (tv fv mv : ℤ) (cT cF cM : Option ℤ) : String :=
  "    <tr>\n      <td align=\"left\"><a href=\"" ++ DOCS_BASE ++
    "#glossary-reachability\" target=\"_blank\">Loaded</a></td>\n      <td align=\"right\">" ++
    jsToLocaleString tv ++ "</td>\n      <td align=\"right\">100.000%</td>" ++
    analysisCmpCell tv cT ++ "\n      <td align=\"right\">" ++ jsToLocaleString fv ++
    "</td>\n      <td align=\"right\">100.000%</td>" ++ analysisCmpCell fv cF ++
    "\n      <td align=\"right\">" ++ jsToLocaleString mv ++
    "</td>\n      <td align=\"right\">100.000%</td>" ++ analysisCmpCell mv cM ++
    "\n    </tr>\n"

/-- `getAnalysisTable` (line 489). -/
def getAnalysisTable (analysis : analysisResults) (analysisTypes : AnalysisResult)
    (compareAnalysis : Option analysisResults) (compareAnalysisType : Option AnalysisResult)
    (compareBranch : Option String) : String :=
  "#### Analysis Results\n\n<table>\n  <thead>\n    <tr>\n      <th align=\"left\">Category</th>\n      <th align=\"right\">Types</th>\n      <th align=\"right\">in %</th>" ++
    getCompareTableHeader compareBranch ++
    "\n      <th align=\"right\">Fields</th>\n      <th align=\"right\">in %</th>" ++
    getCompareTableHeader compareBranch ++
    "\n      <th align=\"right\">Methods</th>\n      <th align=\"right\">in %</th>" ++
    getCompareTableHeader compareBranch ++
    "\n    </tr>\n  </thead>\n  <tbody>\n" ++
    analysisValueRow "#glossary-reachability" "Reachable" analysisTypes.reachable
      analysisTypes.total analysis.fields.reachable analysis.fields.total
      analysis.methods.reachable analysis.methods.total
      (compareAnalysisType.map fun a => a.reachable)
      (compareAnalysis.map fun a => a.fields.reachable)
      (compareAnalysis.map fun a => a.methods.reachable) ++
    analysisValueRow "#glossary-reflection-registrations" "Reflection" analysisTypes.reflection
      analysisTypes.total analysis.fields.reflection analysis.fields.total
      analysis.methods.reflection analysis.methods.total
      (compareAnalysisType.map fun a => a.reflection)
      (compareAnalysis.map fun a => a.fields.reflection)
      (compareAnalysis.map fun a => a.methods.reflection) ++
    analysisValueRow "#glossary-jni-access-registrations" "JNI" analysisTypes.jni
      analysisTypes.total analysis.fields.jni analysis.fields.total
      analysis.methods.jni analysis.methods.total
      (compareAnalysisType.map fun a => a.jni)
      (compareAnalysis.map fun a => a.fields.jni)
      (compareAnalysis.map fun a => a.methods.jni) ++
    analysisLoadedRow analysisTypes.total analysis.fields.total analysis.methods.total
      (compareAnalysisType.map fun a => a.total)
      (compareAnalysis.map fun a => a.fields.total)
      (compareAnalysis.map fun a => a.methods.total) ++
    "  </tbody>\n</table>\n"

/-- A compare cell of `getDetailsTable`:
`${c !== null ? getCompareColumnBytes(v, c, 98, 110) : ''}`. -/
def detailsCmpCell (v : ℤ) (copt : Option ℤ) : String :=
  match copt with
  | none => ""
  | some cv => getCompareColumnBytes (jsNum v) (some (jsNum cv)) 98 110

/-- `getDetailsTable` (line 573). -/
def getDetailsTable (details : ImageDetails) (objectCount : String)
    (debugInfoLine : String) (otherBytes : ℤ) (compareDetails : Option ImageDetails)
    (compareBranch : Option String) (compareOtherBytes : Option ℤ) : String :=
  "#### Image Details\n\n<table>\n  <thead>\n    <tr>\n      <th align=\"left\">Category</th>\n      <th align=\"right\">Size</th>\n      <th align=\"right\">in %</th>" ++
    getCompareTableHeader compareBranch ++
    "\n      <th align=\"left\">Details</th>\n    </tr>\n  </thead>\n  <tbody>\n    <tr>\n      <td align=\"left\"><a href=\"" ++
    DOCS_BASE ++ "#glossary-code-area\" target=\"_blank\">Code area</a></td>\n      <td align=\"right\">" ++
    bytesToHuman (jsNum details.code_area.bytes) ++ "</td>\n      <td align=\"right\">" ++
    toPercent (jsNum details.code_area.bytes) (jsNum details.total_bytes) ++ "</td>" ++
    detailsCmpCell details.code_area.bytes (compareDetails.map fun d => d.code_area.bytes) ++
    "\n      <td align=\"left\">" ++ jsToLocaleString details.code_area.compilation_units ++
    " compilation units</td>\n    </tr>\n    <tr>\n      <td align=\"left\"><a href=\"" ++
    DOCS_BASE ++ "#glossary-image-heap\" target=\"_blank\">Image heap</a></td>\n      <td align=\"right\">" ++
    bytesToHuman (jsNum details.image_heap.bytes) ++ "</td>\n      <td align=\"right\">" ++
    toPercent (jsNum details.image_heap.bytes) (jsNum details.total_bytes) ++ "</td>" ++
    detailsCmpCell details.image_heap.bytes (compareDetails.map fun d => d.image_heap.bytes) ++
    "\n      <td align=\"left\">" ++ objectCount ++
    bytesToHuman (jsNum details.image_heap.resources.bytes) ++ " for " ++
    jsToLocaleString details.image_heap.resources.count ++ " resources</td>\n    </tr>" ++
    debugInfoLine ++
    "\n    <tr>\n      <td align=\"left\"><a href=\"" ++ DOCS_BASE ++
    "#glossary-other-data\" target=\"_blank\">Other data</a></td>\n      <td align=\"right\">" ++
    bytesToHuman (jsNum otherBytes) ++ "</td>\n      <td align=\"right\">" ++
    toPercent (jsNum otherBytes) (jsNum details.total_bytes) ++ "</td>" ++
    detailsCmpCell otherBytes compareOtherBytes ++
    "\n      <td align=\"left\"></td>\n    </tr>\n    <tr>\n      <td align=\"left\">Total</td>\n      <td align=\"right\"><strong>" ++
    bytesToHuman (jsNum details.total_bytes) ++
    "</strong></td>\n      <td align=\"right\">100.000%</td>" ++
    detailsCmpCell details.total_bytes (compareDetails.map fun d => d.total_bytes) ++
    "\n      <td align=\"left\"></td>\n    </tr>\n  </tbody>\n</table>\n"

/-- `getResourceUsageTable` (line 625). -/
def getResourceUsageTable (resources : ResourceUsage) (gcTotalTimeRatio : String)
    (compareResources : Option ResourceUsage) (compareBranch : Option String) : String :=
  "#### Resource Usage\n\n<table>" ++ getResourcesUsageHeader compareBranch ++
    "\n  <tbody>\n    <tr>\n      <td align=\"left\"><a href=\"" ++ DOCS_BASE ++
    "#glossary-garbage-collections\" target=\"_blank\">Garbage collection</a></td>\n      <td align=\"left\">" ++
    jsToFixed resources.garbage_collection.total_secs 2 ++ "s" ++ gcTotalTimeRatio ++ " in " ++
    jsIntRepr resources.garbage_collection.count ++ " GCs</td>" ++
    (match compareResources with
     | none => ""
     | some cr =>
       getCompareColumnTime resources.garbage_collection.total_secs
         (some cr.garbage_collection.total_secs) 98 108) ++
    "\n    </tr>\n    <tr>\n      <td align=\"left\"><a href=\"" ++ DOCS_BASE ++
    "#glossary-peak-rss\" target=\"_blank\">Peak RSS</a></td>\n      <td align=\"left\">" ++
    bytesToHuman (jsNum resources.memory.peak_rss_bytes) ++ " (" ++
    toPercent (jsNum resources.memory.peak_rss_bytes) (jsNum resources.memory.system_total) ++
    " of " ++ bytesToHuman (jsNum resources.memory.system_total) ++ " system memory)</td>" ++
    (match compareResources with
     | none => ""
     | some cr =>
       getCompareColumnBytes (jsNum resources.memory.peak_rss_bytes)
         (some (jsNum cr.memory.peak_rss_bytes)) 98 108) ++
    "\n    </tr>\n    <tr>\n      <td align=\"left\"><a href=\"" ++ DOCS_BASE ++
    "#glossary-cpu-load\" target=\"_blank\">CPU load</a></td>\n      <td align=\"left\">" ++
    jsToFixed resources.cpu.load 3 ++ " (" ++
    toPercent resources.cpu.load (jsNum resources.cpu.total_cores) ++ " of " ++
    jsIntRepr resources.cpu.total_cores ++ " CPU cores)</td>" ++
    (match compareResources with
     | none => ""
     | some cr => getCompareColumn resources.cpu.load (some cr.cpu.load) 98 108) ++
    "\n    </tr>\n  </tbody>\n</table>\n"

/-! ## Report assembly (`reports.ts` lines 200–389)

`createReport` reads `process.env.GITHUB_BASE_REF` and the GitHub run
context; both are passed here as explicit parameters.  `createPRComparison`
additionally reads `GITHUB_HEAD_REF` and the comparison-parameter action
input. -/

/-- Line 341 (and 380 for the baseline): `analysis.types ? analysis.types :
analysis.classes`. -/
def selectAnalysisTypes (analysis : analysisResults) : AnalysisResult :=
  match analysis.types with
  | some t => t
  | none => analysis.classes

/-- Lines 347/372: `details.debug_info ? details.debug_info.bytes : 0`. -/
def debugInfoBytesOf (details : ImageDetails) : ℤ :=
  match details.debug_info with
  | some di => di.bytes
  | none => 0

/-- Lines 348–352/373–377: `total_bytes − code_area.bytes −
image_heap.bytes − debugInfoBytes`, all taken from the same snapshot. -/
def otherBytesOf (details : ImageDetails) : ℤ :=
  details.total_bytes - details.code_area.bytes - details.image_heap.bytes -
    debugInfoBytesOf details

/-- Line 204 of `reports.ts`: the selector for the **base** snapshot's
"Types" values is `analysisRecent.types ? analysisBase.types :
analysisBase.classes` — the presence test looks at the *recent* snapshot.
When the recent snapshot has `types` but the base one does not, this
evaluates to `undefined` (`none` here), and the analysis diagram then
dereferences it. -/
def analysisTypesBaseSel (analysisRecent analysisBase : analysisResults) :
    Option AnalysisResult :=
  if analysisRecent.types.isSome then analysisBase.types else some analysisBase.classes

/-- Line 207 of `reports.ts`: `debugInfoBytesRecent = detailsBase.debug_info
? detailsBase.debug_info.bytes : 0` — the value for the *recent* snapshot is
read from the **base** snapshot's `debug_info`. -/
def debugInfoBytesRecentPR (detailsBase : ImageDetails) : ℤ :=
  match detailsBase.debug_info with
  | some di => di.bytes
  | none => 0

/-- Line 208 of `reports.ts`. -/
def debugInfoBytesBasePR (detailsBase : ImageDetails) : ℤ :=
  match detailsBase.debug_info with
  | some di => di.bytes
  | none => 0

/-- Lines 209–213 of `reports.ts`: the recent snapshot's "other" bytes,
subtracting `debugInfoBytesRecent` (which line 207 took from the base
snapshot). -/
def otherBytesRecentPR (detailsRecent detailsBase : ImageDetails) : ℤ :=
  detailsRecent.total_bytes - detailsRecent.code_area.bytes -
    detailsRecent.image_heap.bytes - debugInfoBytesRecentPR detailsBase

/-- Lines 214–218 of `reports.ts`. -/
def otherBytesBasePR (detailsBase : ImageDetails) : ℤ :=
  detailsBase.total_bytes - detailsBase.code_area.bytes -
    detailsBase.image_heap.bytes - debugInfoBytesBasePR detailsBase

/-- `createComparedDetailsDiagramm` (line 236). -/
def createComparedDetailsDiagramm (recentBranch baseBranch : Option String)
    (detailsRecent detailsBase : ImageDetails) (otherBytesBase otherBytesRecent : ℤ) :
    String :=
  "#### Image Details\n\n```mermaid\ngantt\n    title Native Image Size Details \n    todayMarker off\n    dateFormat  X\n    axisFormat %\n\n    section Code area\n    " ++
    jsOptStr recentBranch ++ " (" ++ bytesToHuman (jsNum detailsRecent.code_area.bytes) ++
    "): active, 0, " ++ jsIntRepr detailsRecent.code_area.bytes ++ "\n    " ++
    jsOptStr baseBranch ++ " (" ++ bytesToHuman (jsNum detailsBase.code_area.bytes) ++
    "): 0, " ++ jsIntRepr detailsBase.code_area.bytes ++
    "\n    \n    section Image heap\n    " ++
    jsOptStr recentBranch ++ " (" ++ bytesToHuman (jsNum detailsRecent.image_heap.bytes) ++
    "): active, 0, " ++ jsIntRepr detailsRecent.image_heap.bytes ++ "\n    " ++
    jsOptStr baseBranch ++ " (" ++ bytesToHuman (jsNum detailsBase.image_heap.bytes) ++
    "): 0, " ++ jsIntRepr detailsBase.image_heap.bytes ++
    "\n    \n    section Other data\n    " ++
    jsOptStr recentBranch ++ " (" ++ bytesToHuman (jsNum otherBytesRecent) ++
    "): active, 0, " ++ jsIntRepr otherBytesRecent ++ "\n    " ++
    jsOptStr baseBranch ++ " (" ++ bytesToHuman (jsNum otherBytesBase) ++
    "): 0, " ++ jsIntRepr otherBytesBase ++
    "\n\n    section Total\n    " ++
    jsOptStr recentBranch ++ " (" ++ bytesToHuman (jsNum detailsRecent.total_bytes) ++
    ")   : active, 0, " ++ jsIntRepr detailsRecent.total_bytes ++ "\n    " ++
    jsOptStr baseBranch ++ " (" ++ bytesToHuman (jsNum detailsBase.total_bytes) ++
    ")   : 0, " ++ jsIntRepr detailsBase.total_bytes ++ "\n```\n"

/-- One `gantt` line pair of `createComparedAnalysisResultsDiagramm`:
`    ${recent} ${rv} (label): active, 0, ${rv}\n    ${base} ${bv} (label):
0, ${bv}\n`. -/
def analysisDiagramPair (recentBranch baseBranch : Option String) (label : String)
    (rv bv : ℤ) : String :=
  "    " ++ jsOptStr recentBranch ++ " " ++ jsIntRepr rv ++ " (" ++ label ++
    "): active, 0, " ++ jsIntRepr rv ++ "\n    " ++ jsOptStr baseBranch ++ " " ++
    jsIntRepr bv ++ " (" ++ label ++ "): 0, " ++ jsIntRepr bv ++ "\n"

/-- `createComparedAnalysisResultsDiagramm` (line 265). -/
def createComparedAnalysisResultsDiagramm (recentBranch baseBranch : Option String)
    (analysisRecent : analysisResults) (analysisTypesRecent : AnalysisResult)
    (analysisBase : analysisResults) (analysisTypeBase : AnalysisResult) : String :=
  "#### Analysis Results\n\n```mermaid\ngantt\n    title Native Image Analysis Results \n    todayMarker off\n    dateFormat  X\n    axisFormat %\n\n    section Types\n" ++
    analysisDiagramPair recentBranch baseBranch "Reachable" analysisTypesRecent.reachable
      analysisTypeBase.reachable ++
    analysisDiagramPair recentBranch baseBranch "Reflection" analysisTypesRecent.reflection
      analysisTypeBase.reflection ++
    analysisDiagramPair recentBranch baseBranch "JNI" analysisTypesRecent.jni
      analysisTypeBase.jni ++
    analysisDiagramPair recentBranch baseBranch "Total Loaded" analysisTypesRecent.total
      analysisTypeBase.total ++
    "    \n    section Fields\n" ++
    analysisDiagramPair recentBranch baseBranch "Reachable" analysisRecent.fields.reachable
      analysisBase.fields.reachable ++
    analysisDiagramPair recentBranch baseBranch "Reflection" analysisRecent.fields.reflection
      analysisBase.fields.reflection ++
    analysisDiagramPair recentBranch baseBranch "JNI" analysisRecent.fields.jni
      analysisBase.fields.jni ++
    analysisDiagramPair recentBranch baseBranch "Total Loaded" analysisRecent.fields.total
      analysisBase.fields.total ++
    "    \n    section Methods\n" ++
    analysisDiagramPair recentBranch baseBranch "Reachable" analysisRecent.methods.reachable
      analysisBase.methods.reachable ++
    analysisDiagramPair recentBranch baseBranch "Reflection" analysisRecent.methods.reflection
      analysisBase.methods.reflection ++
    analysisDiagramPair recentBranch baseBranch "JNI" analysisRecent.methods.jni
      analysisBase.methods.jni ++
    analysisDiagramPair recentBranch baseBranch "Total Loaded" analysisRecent.methods.total
      analysisBase.methods.total ++
    "```\n"

/-- `createComparedResourceUsageDiagramm` (line 308). -/
def createComparedResourceUsageDiagramm (recentBranch baseBranch : Option String)
    (resourcesRecent resourcesBase : ResourceUsage) : String :=
  "#### Resource Usage\n\n```mermaid\ngantt\n    title Native Image Resource Usage\n    todayMarker off\n    dateFormat  X\n    axisFormat %\n\n    section Garbage Collection\n    " ++
    jsOptStr recentBranch ++ " (" ++ jsNumRepr resourcesRecent.garbage_collection.total_secs ++
    "s): active, 0, 100\n    " ++ jsOptStr baseBranch ++ " (" ++
    jsNumRepr resourcesBase.garbage_collection.total_secs ++ "s): 0, " ++
    normalizeValue resourcesBase.garbage_collection.total_secs
      resourcesRecent.garbage_collection.total_secs ++
    "\n    \n    section Peak RSS\n    " ++
    jsOptStr recentBranch ++ " (" ++ bytesToHuman (jsNum resourcesRecent.memory.peak_rss_bytes) ++
    "): active, 0, 100\n    " ++ jsOptStr baseBranch ++ " (" ++
    bytesToHuman (jsNum resourcesBase.memory.peak_rss_bytes) ++ "): 0, " ++
    normalizeValue (jsNum resourcesBase.memory.peak_rss_bytes)
      (jsNum resourcesRecent.memory.peak_rss_bytes) ++
    "\n    \n    section CPU Load\n    " ++
    jsOptStr recentBranch ++ " (" ++ bytesToHuman resourcesRecent.cpu.load ++
    "): active, 0, 100\n    " ++ jsOptStr baseBranch ++ " (" ++
    bytesToHuman resourcesBase.cpu.load ++ "): 0, " ++
    normalizeValue resourcesBase.cpu.load resourcesRecent.cpu.load ++ "\n```\n"

/-- `createPRComparison` (line 200).  The result is `none` when the
evaluation throws: rendering the analysis diagram dereferences
`analysisTypesBase.reachable`, which is a `TypeError` when line 204
selected `undefined` (recent snapshot has `types`, base snapshot does
not). -/
def createPRComparison (dataRecent dataBase : BuildOutput)
    (githubBaseRef githubHeadRef : Option String) (comparePara : String) : Option String :=
  let analysisRecent := dataRecent.analysis_results
  let analysisTypesRecent := selectAnalysisTypes analysisRecent
  let analysisBase := dataBase.analysis_results
  let analysisTypesBase := analysisTypesBaseSel analysisRecent analysisBase
  let detailsRecent := dataRecent.image_details
  let detailsBase := dataBase.image_details
  let otherBytesRecent := otherBytesRecentPR detailsRecent detailsBase
  let otherBytesBase := otherBytesBasePR detailsBase
  let resourcesRecent := dataRecent.resource_usage
  let resourcesBase := dataBase.resource_usage
  let baseBranch := githubBaseRef
  let recentBranch := githubHeadRef
  let compareParameter := jsToLowerCase comparePara
  let analysisBlock : Option String :=
    if strHasSub compareParameter "analysis results" then
      match analysisTypesBase with
      | none => none
      | some aTB =>
        some (createComparedAnalysisResultsDiagramm recentBranch baseBranch analysisRecent
          analysisTypesRecent analysisBase aTB)
    else some ""
  match analysisBlock with
  | none => none
  | some ab =>
    some ("## GraalVM Native Image PR comparison\n\n" ++ ab ++ "\n" ++
      (if strHasSub compareParameter "image details" then
        createComparedDetailsDiagramm recentBranch baseBranch detailsRecent detailsBase
          otherBytesBase otherBytesRecent
      else "") ++ "\n" ++
      (if strHasSub compareParameter "resource usage" then
        createComparedResourceUsageDiagramm recentBranch baseBranch resourcesRecent
          resourcesBase
      else "") ++ "\n\n" ++ getFooter)

/-- `createReport` (line 337). -/
def createReport (data : BuildOutput) (compareData : Option BuildOutput)
    (context : GitHubContext) (githubBaseRef : Option String) : String :=
  let info := data.general_info
  let analysis := data.analysis_results
  let analysisTypes := selectAnalysisTypes analysis
  let details := data.image_details
  let objectCount :=
    match details.image_heap.objects with
    | some o => jsToLocaleString o.count ++ " objects, "
    | none => ""
  let debugInfoBytes := debugInfoBytesOf details
  let otherBytes := otherBytesOf details
  let debugInfoLine := getDebugInfoLine details debugInfoBytes
  let versionLine := getVersionLine info
  let graalLine := getGraalLine info
  let resources := data.resource_usage
  let totalTime := getTotalTime resources
  let gcTotalTimeRatio := getTotalTimeRatio resources
  let compareBranch : Option String :=
    match compareData with
    | some _ => some (jsOptStr githubBaseRef)
    | none => none
  let compareDetails := compareData.map fun d => d.image_details
  let compareOtherBytes : Option ℤ := compareDetails.map otherBytesOf
  let compareResources := compareData.map fun d => d.resource_usage
  let compareAnalysis := compareData.map fun d => d.analysis_results
  let compareAnalysisTypes := compareAnalysis.map selectAnalysisTypes
  getReportHeader info totalTime context ++ "\n" ++
    getEnvironmentTable versionLine graalLine info ++ "\n" ++
    getAnalysisTable analysis analysisTypes compareAnalysis compareAnalysisTypes
      compareBranch ++ "\n" ++
    getDetailsTable details objectCount debugInfoLine otherBytes compareDetails
      compareBranch compareOtherBytes ++ "\n" ++
    getResourceUsageTable resources gcTotalTimeRatio compareResources compareBranch ++
    "\n" ++ getFooter

/-! ## `generateReports` (`reports.ts` lines 130–180)

The surrounding I/O is modelled by an environment record holding the
action inputs, whether the telemetry file exists, and the already-parsed
contents of the telemetry file and the PR-base metrics (deserialisation
itself, whose failure is a hard error, is outside this model).  The result
records the effects the function performs, in order: warnings issued, the
job-summary body written, PR comments created and the snapshot handed to
`createTree`/`createRef` for storage, plus whether evaluation threw. -/

structure ReportsEnv where
  niJobReportsInput : String
  niPRReportsInput : String
  niPRComparisonInput : String
  niPRComparisonParaInput : String
  isPREvent : Bool
  buildOutputFileExists : Bool
  buildOutputFile : BuildOutput
  prBaseBranchMetrics : BuildOutput
  context : GitHubContext
  githubBaseRef : Option String
  githubHeadRef : Option String
  deriving DecidableEq, Repr

/-- `areJobReportsEnabled` (line 166). -/
def areJobReportsEnabled (env : ReportsEnv) : Bool := env.niJobReportsInput == "true"

/-- `arePRReportsEnabled` (line 170). -/
def arePRReportsEnabled (env : ReportsEnv) : Bool :=
  env.isPREvent && (env.niPRReportsInput == "true")

/-- `arePRBaseComparisonEnabled` (line 174). -/
def arePRBaseComparisonEnabled (env : ReportsEnv) : Bool :=
  env.isPREvent && (env.niPRComparisonInput == "true")

/-- `getPRComparePara` (line 178). -/
def getPRComparePara (env : ReportsEnv) : String := env.niPRComparisonParaInput

/-- The warning of lines 133–135. -/
def MISSING_BUILD_OUTPUT_WARNING : String :=
  "Unable to find build output data to create a report. Are you sure this build job has used GraalVM Native Image?"

/-- The effects performed by one `generateReports` call. -/
structure ReportEffects where
  warnings : List String
  summaryWritten : Option String
  prComments : List String
  storedSnapshot : Option BuildOutput
  crashed : Bool
  deriving DecidableEq, Repr

/-- `generateReports` (line 130). -/
def generateReports (env : ReportsEnv) : ReportEffects :=
  if areJobReportsEnabled env || arePRReportsEnabled env then
    if !env.buildOutputFileExists then
      { warnings := [MISSING_BUILD_OUTPUT_WARNING], summaryWritten := none, prComments := [],
        storedSnapshot := none, crashed := false }
    else
      let buildOutput := env.buildOutputFile
      let report := createReport buildOutput none env.context env.githubBaseRef
      let summaryWritten := if areJobReportsEnabled env then some report else none
      let comments :=
        if arePRReportsEnabled env && !arePRBaseComparisonEnabled env then [report] else []
      let storedSnapshot := some buildOutput
      if arePRBaseComparisonEnabled env then
        let compareBranchBuildOutput := env.prBaseBranchMetrics
        let prReport :=
          createReport buildOutput (some compareBranchBuildOutput) env.context
            env.githubBaseRef
        match
          createPRComparison buildOutput env.prBaseBranchMetrics env.githubBaseRef
            env.githubHeadRef (getPRComparePara env) with
        | none =>
          { warnings := [], summaryWritten := summaryWritten,
            prComments := comments ++ [prReport], storedSnapshot := storedSnapshot,
            crashed := true }
        | some cmp =>
          { warnings := [], summaryWritten := summaryWritten,
            prComments := comments ++ [prReport, cmp], storedSnapshot := storedSnapshot,
            crashed := false }
      else
        { warnings := [], summaryWritten := summaryWritten, prComments := comments,
          storedSnapshot := storedSnapshot, crashed := false }
  else
    { warnings := [], summaryWritten := none, prComments := [], storedSnapshot := none,
      crashed := false }

/-! ## Specification-side definitions

These definitions follow the wording of the specification (not the
source); the refinement theorems below compare them with the definitions
embedded from the source. -/

/-- Claim C6, following the spec's words: unit selected by binary magnitude
thresholds on the absolute value, value scaled by the chosen unit,
2 decimal places. -/
def bytesToHumanSpec (b : JsVal) : String :=
  if |b.toRat| < 1024 then jsToFixed b 2 ++ "B"
  else if |b.toRat| < 1024 ^ 2 then jsToFixed (JsVal.div b (JsVal.ofInt 1024)) 2 ++ "KB"
  else if |b.toRat| < 1024 ^ 3 then
    jsToFixed (JsVal.div b (JsVal.ofInt (1024 ^ 2))) 2 ++ "MB"
  else jsToFixed (JsVal.div b (JsVal.ofInt (1024 ^ 3))) 2 ++ "GB"

/-- Claim C7, following the spec's words: prefix `+` exactly when
`current ≥ baseline`, magnitude `|current − baseline| / baseline * 100`
formatted to 3 decimals. -/
def diffPercentSpec (baseValue recentValue : JsVal) : String :=
  (if baseValue.toRat ≤ recentValue.toRat then "+" else "-") ++
    jsToFixed
      (JsVal.mul (JsVal.div (JsVal.abs (JsVal.sub recentValue baseValue)) baseValue)
        (JsVal.ofInt 100)) 3 ++ "%"

/-- Claim C8, following the spec's words: `"{s:.1f}s"` below one minute,
otherwise `"{floor(s/60)}m {floor(s mod 60)}s"` (with
`s mod 60 = s − 60⋅⌊s/60⌋`). -/
def secondsToHumanSpec (seconds : JsVal) : String :=
  if seconds.toRat < 60 then jsToFixed seconds 1 ++ "s"
  else
    toString ⌊seconds.toRat / 60⌋ ++ "m " ++
      toString ⌊seconds.toRat - 60 * (⌊seconds.toRat / 60⌋ : ℚ)⌋ ++ "s"

/-- The payload of a `getCompareColumn` cell:
`${(value - compareValue).toFixed(2)} (${getDiffPercent(compareValue,
value)})`. -/
def compareColumnPayload (value compareValue : JsVal) : String :=
  jsToFixed (JsVal.sub value compareValue) 2 ++ " (" ++ getDiffPercent compareValue value ++ ")"

/-- The payload of a `getCompareColumnBytes` cell. -/
def compareColumnBytesPayload (value compareValue : JsVal) : String :=
  bytesToHuman (JsVal.sub value compareValue) ++ " (" ++ getDiffPercent compareValue value ++ ")"

/-! ## Concrete data used by the claim theorems -/

/-- Baseline image details: 1,000,000 total bytes, of which 400,000 code
area, 500,000 image heap (other data: 100,000). -/
def detailsBaseline1M : ImageDetails :=
  ⟨1000000, ⟨400000, 120⟩, ⟨500000, none, ⟨0, 0⟩⟩, none, none⟩

/-- Current image details at ratio 109% of the baseline in every row. -/
def detailsCurrent109pc : ImageDetails :=
  ⟨1090000, ⟨436000, 120⟩, ⟨545000, none, ⟨0, 0⟩⟩, none, none⟩

/-- Current image details at ratio exactly 110% of the baseline in every
row. -/
def detailsCurrent110pc : ImageDetails :=
  ⟨1100000, ⟨440000, 120⟩, ⟨550000, none, ⟨0, 0⟩⟩, none, none⟩

/-- Current image details at ratio 115% of the baseline in every row. -/
def detailsCurrent115pc : ImageDetails :=
  ⟨1150000, ⟨460000, 120⟩, ⟨575000, none, ⟨0, 0⟩⟩, none, none⟩

/-- An analysis category in which every count is zero. -/
def zeroAnalysisResult : AnalysisResult := ⟨0, 0, 0, 0⟩

/-- An analysis block in which every count is zero and `types` is absent. -/
def zeroAnalysis : analysisResults := ⟨zeroAnalysisResult, none, zeroAnalysisResult, zeroAnalysisResult⟩

/-- Image details in which every byte count is zero. -/
def zeroDetails : ImageDetails := ⟨0, ⟨0, 0⟩, ⟨0, none, ⟨0, 0⟩⟩, none, none⟩

def sampleGeneralInfo : GeneralInfo :=
  ⟨"my-app", "GraalVM 22.3.0", some "17.0.5", none, some "gcc", "serial gc", none⟩

def sampleResourceUsage : ResourceUsage :=
  ⟨⟨JsVal.ofInt 2, 4⟩, ⟨5, JsVal.ofInt 1⟩, ⟨8000000000, 1000000000⟩, none⟩

def sampleContext : GitHubContext := ⟨"build", "https://github.com", "acme", "my-app", 42, 7⟩

/-- The `types` category of `analysisWithTypes`. -/
def typesCategory : AnalysisResult := ⟨100, 60, 10, 5⟩

/-- An analysis block that has a dedicated `types` category. -/
def analysisWithTypes : analysisResults :=
  ⟨⟨90, 50, 9, 4⟩, some typesCategory, ⟨200, 120, 20, 10⟩, ⟨300, 180, 30, 15⟩⟩

/-- An analysis block without a `types` category. -/
def analysisWithoutTypes : analysisResults :=
  ⟨⟨80, 40, 8, 3⟩, none, ⟨190, 110, 19, 9⟩, ⟨290, 170, 29, 14⟩⟩

/-- Image details with a `debug_info` block of 100 bytes
(total 1000 = 400 code + 300 heap + 100 debug + 200 other). -/
def detailsWithDebug : ImageDetails :=
  ⟨1000, ⟨400, 3⟩, ⟨300, none, ⟨0, 0⟩⟩, some ⟨100⟩, none⟩

/-- The same image details without `debug_info`. -/
def detailsNoDebug : ImageDetails := ⟨1000, ⟨400, 3⟩, ⟨300, none, ⟨0, 0⟩⟩, none, none⟩

/-- A current snapshot whose analysis block has a `types` category. -/
def snapshotWithTypes : BuildOutput :=
  ⟨sampleGeneralInfo, analysisWithTypes, detailsWithDebug, sampleResourceUsage⟩

/-- A baseline snapshot whose analysis block has no `types` category. -/
def snapshotWithoutTypes : BuildOutput :=
  ⟨sampleGeneralInfo, analysisWithoutTypes, detailsNoDebug, sampleResourceUsage⟩

/-- An environment in which job reports are enabled but the telemetry file
is absent. -/
def sampleEnvMissingFile : ReportsEnv :=
  ⟨"true", "false", "false", "", false, false, snapshotWithoutTypes, snapshotWithoutTypes,
    sampleContext, some "main", some "feature"⟩

/-! ## Bridge lemmas: `JsVal` arithmetic versus `ℚ` -/

namespace JsVal

theorem toRat_ofInt (n : ℤ) : (ofInt n).toRat = (n : ℚ) := by
  simp [toRat, ofInt]

theorem den_ofInt (n : ℤ) : (ofInt n).den = 1 := rfl

theorem natAbs_cast_rat (a : ℤ) : ((a.natAbs : ℚ)) = |(a : ℚ)| := by
  rw [Int.cast_natAbs, Int.cast_abs]

theorem rat_div_div (x y z w : ℚ) : (x / y) / (z / w) = (x * w) / (y * z) := by
  simp [div_eq_mul_inv, mul_inv]; ring

theorem toRat_mul (a b : JsVal) : (mul a b).toRat = a.toRat * b.toRat := by
  unfold toRat mul
  push_cast
  rw [div_mul_div_comm]

theorem toRat_div (a b : JsVal) : (div a b).toRat = a.toRat / b.toRat := by
  unfold toRat div
  rcases lt_or_ge b.num 0 with hneg | hge
  · rw [if_pos hneg]
    simp only
    push_cast [natAbs_cast_rat]
    rw [abs_of_neg (by exact_mod_cast hneg : (b.num : ℚ) < 0)]
    rw [rat_div_div, mul_neg, neg_div_neg_eq]
  · rw [if_neg (not_lt.mpr hge)]
    simp only
    push_cast [natAbs_cast_rat]
    rw [abs_of_nonneg (by exact_mod_cast hge : (0:ℚ) ≤ (b.num : ℚ))]
    rw [rat_div_div]

theorem toRat_sub {a b : JsVal} (ha : a.den ≠ 0) (hb : b.den ≠ 0) :
    (sub a b).toRat = a.toRat - b.toRat := by
  unfold toRat sub
  have ha' : (a.den : ℚ) ≠ 0 := Nat.cast_ne_zero.mpr ha
  have hb' : (b.den : ℚ) ≠ 0 := Nat.cast_ne_zero.mpr hb
  push_cast
  field_simp
  ring

theorem toRat_abs (a : JsVal) : (abs a).toRat = |a.toRat| := by
  unfold toRat abs
  simp only
  rw [abs_div]
  congr 1
  · rw [Int.cast_abs]
  · exact (abs_of_nonneg (by positivity)).symm

theorem lt_eq_decide {a b : JsVal} (ha : a.den ≠ 0) (hb : b.den ≠ 0) :
    lt a b = decide (a.toRat < b.toRat) := by
  unfold lt isNaN
  have ha' : (0 : ℚ) < a.den := by exact_mod_cast Nat.pos_of_ne_zero ha
  have hb' : (0 : ℚ) < b.den := by exact_mod_cast Nat.pos_of_ne_zero hb
  simp only [ha, hb, decide_False, Bool.and_false, Bool.false_or, Bool.or_false,
    Bool.false_and]
  rw [if_neg (by simp), if_neg (by simp [hb])]
  rw [decide_eq_decide]
  unfold toRat
  rw [div_lt_div_iff ha' hb']
  exact ⟨fun h => by exact_mod_cast h, fun h => by exact_mod_cast h⟩

theorem pos_of_toRat_pos {a : JsVal} (h : 0 < a.toRat) : 0 < a.num ∧ a.den ≠ 0 := by
  rcases Nat.eq_zero_or_pos a.den with h0 | hpos
  · exfalso
    rw [toRat, h0] at h
    simp at h
  · refine ⟨?_, Nat.pos_iff_ne_zero.mp hpos⟩
    by_contra hnum
    push_neg at hnum
    have : a.toRat ≤ 0 :=
      div_nonpos_iff.mpr (Or.inr ⟨by exact_mod_cast hnum, by positivity⟩)
    exact absurd h (not_lt.mpr this)

theorem num_nonneg_of_toRat_nonneg {a : JsVal} (hd : a.den ≠ 0) (h : 0 ≤ a.toRat) :
    0 ≤ a.num := by
  by_contra hnum
  push_neg at hnum
  have hd' : (0 : ℚ) < a.den := by exact_mod_cast Nat.pos_of_ne_zero hd
  have : a.toRat < 0 := div_neg_of_neg_of_pos (by exact_mod_cast hnum) hd'
  exact absurd h (not_le.mpr this)

theorem trunc_eq_floor {a : JsVal} (hd : a.den ≠ 0) (h : 0 ≤ a.toRat) :
    a.trunc = ⌊a.toRat⌋ := by
  have hnum : 0 ≤ a.num := num_nonneg_of_toRat_nonneg hd h
  obtain ⟨m, hm⟩ : ∃ m : ℕ, a.num = (m : ℤ) := ⟨a.num.toNat, (Int.toNat_of_nonneg hnum).symm⟩
  unfold trunc toRat
  rw [hm]
  rw [Rat.floor_intCast_div_natCast]
  rfl

end JsVal

/-! ## Band structure of the threshold classifier -/

theorem ratioVal_den {v cv : JsVal} (hv : v.den ≠ 0) (hnum : cv.num ≠ 0) :
    (ratioVal v cv).den ≠ 0 := by
  unfold ratioVal JsVal.mul JsVal.div JsVal.ofInt
  rcases lt_or_ge cv.num 0 with hneg | hge
  · simp only [if_pos hneg]
    simpa using ⟨hv, hnum⟩
  · simp only [if_neg (not_lt.mpr hge)]
    simpa using ⟨hv, hnum⟩

theorem ratioVal_toRat (v cv : JsVal) :
    (ratioVal v cv).toRat = v.toRat / cv.toRat * 100 := by
  unfold ratioVal
  rw [JsVal.toRat_mul, JsVal.toRat_div, JsVal.toRat_ofInt]
  norm_num

/-- Case analysis for a `getCompareColumn` cell with a finite value, a
finite positive baseline and integer bounds: strictly below the lower
bound the cell is the marked first line, strictly between the bounds it is
the unmarked payload line, strictly above the upper bound it is the marked
third line, and at a ratio equal to either bound all three lines are
empty. -/
theorem getCompareColumn_band_cases (v cv : JsVal) (lo hi : ℤ)
    (hv : v.den ≠ 0) (hcv : cv.den ≠ 0) (hpos : 0 < cv.toRat) (hlh : (lo : ℚ) < hi) :
    (v.toRat / cv.toRat * 100 < lo →
      getCompareColumn v (some cv) (JsVal.ofInt lo) (JsVal.ofInt hi) =
        compareCellShell (markedLine ":green_circle:" (compareColumnPayload v cv)) "" "") ∧
    ((lo : ℚ) < v.toRat / cv.toRat * 100 ∧ v.toRat / cv.toRat * 100 < hi →
      getCompareColumn v (some cv) (JsVal.ofInt lo) (JsVal.ofInt hi) =
        compareCellShell "" (compareColumnPayload v cv) "") ∧
    ((hi : ℚ) < v.toRat / cv.toRat * 100 →
      getCompareColumn v (some cv) (JsVal.ofInt lo) (JsVal.ofInt hi) =
        compareCellShell "" "" (markedLine ":red_circle:" (compareColumnPayload v cv))) ∧
    (v.toRat / cv.toRat * 100 = lo ∨ v.toRat / cv.toRat * 100 = hi →
      getCompareColumn v (some cv) (JsVal.ofInt lo) (JsVal.ofInt hi) =
        compareCellShell "" "" "") := by
  have hcvnum : cv.num ≠ 0 := ne_of_gt (JsVal.pos_of_toRat_pos hpos).1
  have hrden : (ratioVal v cv).den ≠ 0 := ratioVal_den hv hcvnum
  have hlo : (JsVal.ofInt lo).den ≠ 0 := one_ne_zero
  have hhi : (JsVal.ofInt hi).den ≠ 0 := one_ne_zero
  have h1 : JsVal.lt (ratioVal v cv) (JsVal.ofInt lo) =
      decide (v.toRat / cv.toRat * 100 < lo) := by
    rw [JsVal.lt_eq_decide hrden hlo, ratioVal_toRat, JsVal.toRat_ofInt]
  have h2 : JsVal.lt (JsVal.ofInt lo) (ratioVal v cv) =
      decide ((lo : ℚ) < v.toRat / cv.toRat * 100) := by
    rw [JsVal.lt_eq_decide hlo hrden, ratioVal_toRat, JsVal.toRat_ofInt]
  have h3 : JsVal.lt (ratioVal v cv) (JsVal.ofInt hi) =
      decide (v.toRat / cv.toRat * 100 < hi) := by
    rw [JsVal.lt_eq_decide hrden hhi, ratioVal_toRat, JsVal.toRat_ofInt]
  have h4 : JsVal.lt (JsVal.ofInt hi) (ratioVal v cv) =
      decide ((hi : ℚ) < v.toRat / cv.toRat * 100) := by
    rw [JsVal.lt_eq_decide hhi hrden, ratioVal_toRat, JsVal.toRat_ofInt]
  refine ⟨fun hcase => ?_, fun hcase => ?_, fun hcase => ?_, fun hcase => ?_⟩
  · simp only [getCompareColumn, h1, h2, h3, h4, compareColumnPayload]
    simp [hcase, not_lt.mpr hcase.le, not_lt.mpr (hcase.trans hlh).le]
  · simp only [getCompareColumn, h1, h2, h3, h4, compareColumnPayload]
    simp [hcase.1, hcase.2, not_lt.mpr hcase.1.le, not_lt.mpr hcase.2.le]
  · simp only [getCompareColumn, h1, h2, h3, h4, compareColumnPayload]
    simp [hcase, not_lt.mpr (hlh.trans hcase).le, not_lt.mpr hcase.le]
  · rcases hcase with hcase | hcase <;>
      simp [getCompareColumn, h1, h2, h3, h4, hcase, not_lt.mpr hlh.le]

/-- Case analysis for a `getCompareColumnBytes` cell, as in
`getCompareColumn_band_cases`. -/
theorem getCompareColumnBytes_band_cases (v cv : JsVal) (lo hi : ℤ)
    (hv : v.den ≠ 0) (hcv : cv.den ≠ 0) (hpos : 0 < cv.toRat) (hlh : (lo : ℚ) < hi) :
    (v.toRat / cv.toRat * 100 < lo →
      getCompareColumnBytes v (some cv) (JsVal.ofInt lo) (JsVal.ofInt hi) =
        compareCellShell (markedLine ":green_circle:" (compareColumnBytesPayload v cv)) "" "") ∧
    ((lo : ℚ) < v.toRat / cv.toRat * 100 ∧ v.toRat / cv.toRat * 100 < hi →
      getCompareColumnBytes v (some cv) (JsVal.ofInt lo) (JsVal.ofInt hi) =
        compareCellShell "" (compareColumnBytesPayload v cv) "") ∧
    ((hi : ℚ) < v.toRat / cv.toRat * 100 →
      getCompareColumnBytes v (some cv) (JsVal.ofInt lo) (JsVal.ofInt hi) =
        compareCellShell "" "" (markedLine ":red_circle:" (compareColumnBytesPayload v cv))) ∧
    (v.toRat / cv.toRat * 100 = lo ∨ v.toRat / cv.toRat * 100 = hi →
      getCompareColumnBytes v (some cv) (JsVal.ofInt lo) (JsVal.ofInt hi) =
        compareCellShell "" "" "") := by
  have hcvnum : cv.num ≠ 0 := ne_of_gt (JsVal.pos_of_toRat_pos hpos).1
  have hrden : (ratioVal v cv).den ≠ 0 := ratioVal_den hv hcvnum
  have hlo : (JsVal.ofInt lo).den ≠ 0 := one_ne_zero
  have hhi : (JsVal.ofInt hi).den ≠ 0 := one_ne_zero
  have h1 : JsVal.lt (ratioVal v cv) (JsVal.ofInt lo) =
      decide (v.toRat / cv.toRat * 100 < lo) := by
    rw [JsVal.lt_eq_decide hrden hlo, ratioVal_toRat, JsVal.toRat_ofInt]
  have h2 : JsVal.lt (JsVal.ofInt lo) (ratioVal v cv) =
      decide ((lo : ℚ) < v.toRat / cv.toRat * 100) := by
    rw [JsVal.lt_eq_decide hlo hrden, ratioVal_toRat, JsVal.toRat_ofInt]
  have h3 : JsVal.lt (ratioVal v cv) (JsVal.ofInt hi) =
      decide (v.toRat / cv.toRat * 100 < hi) := by
    rw [JsVal.lt_eq_decide hrden hhi, ratioVal_toRat, JsVal.toRat_ofInt]
  have h4 : JsVal.lt (JsVal.ofInt hi) (ratioVal v cv) =
      decide ((hi : ℚ) < v.toRat / cv.toRat * 100) := by
    rw [JsVal.lt_eq_decide hhi hrden, ratioVal_toRat, JsVal.toRat_ofInt]
  refine ⟨fun hcase => ?_, fun hcase => ?_, fun hcase => ?_, fun hcase => ?_⟩
  · simp only [getCompareColumnBytes, h1, h2, h3, h4, compareColumnBytesPayload]
    simp [hcase, not_lt.mpr hcase.le, not_lt.mpr (hcase.trans hlh).le]
  · simp only [getCompareColumnBytes, h1, h2, h3, h4, compareColumnBytesPayload]
    simp [hcase.1, hcase.2, not_lt.mpr hcase.1.le, not_lt.mpr hcase.2.le]
  · simp only [getCompareColumnBytes, h1, h2, h3, h4, compareColumnBytesPayload]
    simp [hcase, not_lt.mpr (hlh.trans hcase).le, not_lt.mpr hcase.le]
  · rcases hcase with hcase | hcase <;>
      simp [getCompareColumnBytes, h1, h2, h3, h4, hcase, not_lt.mpr hlh.le]

/-! ## Substring navigation lemmas -/

theorem listHasPrefix_append (pat l b : List Char) (h : listHasPrefix pat l = true) :
    listHasPrefix pat (l ++ b) = true := by
  induction pat generalizing l with
  | nil => rfl
  | cons p ps ih =>
    cases l with
    | nil => exact absurd h (by simp [listHasPrefix])
    | cons c cs =>
      simp only [listHasPrefix, Bool.and_eq_true] at h
      simp only [List.cons_append, listHasPrefix, Bool.and_eq_true]
      exact ⟨h.1, ih cs h.2⟩

theorem listHasSub_appendR (pat a b : List Char) (h : listHasSub pat b = true) :
    listHasSub pat (a ++ b) = true := by
  induction a with
  | nil => simpa using h
  | cons c rest ih =>
    simp only [List.cons_append, listHasSub, Bool.or_eq_true]
    exact Or.inr ih

theorem listHasSub_appendL (pat a b : List Char) (h : listHasSub pat a = true) :
    listHasSub pat (a ++ b) = true := by
  induction a with
  | nil =>
    cases pat with
    | nil =>
      cases b with
      | nil => rfl
      | cons c cs => simp [listHasSub, listHasPrefix]
    | cons p ps => exact absurd h (by simp [listHasSub, listHasPrefix])
  | cons c rest ih =>
    simp only [listHasSub, Bool.or_eq_true] at h
    simp only [List.cons_append, listHasSub, Bool.or_eq_true]
    rcases h with h | h
    · exact Or.inl (listHasPrefix_append pat (c :: rest) b h)
    · exact Or.inr (ih h)

theorem strHasSub_appendL (a b pat : String) (h : strHasSub a pat = true) :
    strHasSub (a ++ b) pat = true := by
  unfold strHasSub at *
  rw [String.data_append]
  exact listHasSub_appendL pat.data a.data b.data h

theorem strHasSub_appendR (a b pat : String) (h : strHasSub b pat = true) :
    strHasSub (a ++ b) pat = true := by
  unfold strHasSub at *
  rw [String.data_append]
  exact listHasSub_appendR pat.data a.data b.data h

/-! ## Claim theorems -/

set_option maxRecDepth 1000000 in
/-- **C1, counterexample.**  The claim says every Image Details row is
classified with the default policy `lowerBound = 98, upperBound = 108`.
With current `totalBytes = 1,090,000` against baseline `1,000,000` the
ratio is 109 % — above the claimed upper bound of 108, so the claim
predicts a regressed (red) marker — yet the rendered Image Details table
(every row of which is at 109 % of the baseline) carries no marker at all:
`getDetailsTable` classifies its rows with upper bound 110, not 108. -/
theorem claim_C1_counterexample :
    (1090000 : ℚ) / 1000000 * 100 > 108 ∧
    strHasSub
      (getDetailsTable detailsCurrent109pc "" "" (otherBytesOf detailsCurrent109pc)
        (some detailsBaseline1M) (some "main") (some (otherBytesOf detailsBaseline1M)))
      ":red_circle:" = false ∧
    strHasSub
      (getDetailsTable detailsCurrent109pc "" "" (otherBytesOf detailsCurrent109pc)
        (some detailsBaseline1M) (some "main") (some (otherBytesOf detailsBaseline1M)))
      ":green_circle:" = false :=
  ⟨by norm_num, by decide, by decide⟩

set_option maxRecDepth 1000000 in
/-- **C1, amended.**  Every Image Details row in comparison mode is
classified with `lowerBound = 98` and `upperBound = 110` (not the 108
default used elsewhere): a ratio strictly above 110 % yields the regressed
(red) marker, a ratio strictly below 98 % the improved (green) marker, and
a ratio strictly between the bounds an unmarked cell that carries the
delta and percentage.  In particular, for current `totalBytes = 1,150,000`
against baseline `1,000,000` (ratio 115 %) the rendered table is marked
regressed, while the claim's own example `1,100,000` against `1,000,000`
sits exactly on the 110 % boundary and — in exact arithmetic — produces an
empty cell, and 1,090,000 (ratio 109 %) an unmarked neutral cell. -/
theorem claim_C1_amended :
    (∀ v cv : JsVal, v.den ≠ 0 → cv.den ≠ 0 → 0 < cv.toRat →
      ((110 : ℚ) < v.toRat / cv.toRat * 100 →
        getCompareColumnBytes v (some cv) (JsVal.ofInt 98) (JsVal.ofInt 110) =
          compareCellShell "" "" (markedLine ":red_circle:" (compareColumnBytesPayload v cv))) ∧
      (v.toRat / cv.toRat * 100 < 98 →
        getCompareColumnBytes v (some cv) (JsVal.ofInt 98) (JsVal.ofInt 110) =
          compareCellShell (markedLine ":green_circle:" (compareColumnBytesPayload v cv)) "" "") ∧
      ((98 : ℚ) < v.toRat / cv.toRat * 100 ∧ v.toRat / cv.toRat * 100 < 110 →
        getCompareColumnBytes v (some cv) (JsVal.ofInt 98) (JsVal.ofInt 110) =
          compareCellShell "" (compareColumnBytesPayload v cv) "")) ∧
    strHasSub
      (getDetailsTable detailsCurrent115pc "" "" (otherBytesOf detailsCurrent115pc)
        (some detailsBaseline1M) (some "main") (some (otherBytesOf detailsBaseline1M)))
      ":red_circle:" = true ∧
    detailsCmpCell detailsCurrent110pc.total_bytes (some detailsBaseline1M.total_bytes) =
      compareCellShell "" "" "" ∧
    detailsCmpCell detailsCurrent109pc.total_bytes (some detailsBaseline1M.total_bytes) =
      compareCellShell "" (compareColumnBytesPayload (jsNum 1090000) (jsNum 1000000)) "" := by
  refine ⟨fun v cv hv hcv hpos => ?_, by decide, by decide, by decide⟩
  have h := getCompareColumnBytes_band_cases v cv 98 110 hv hcv hpos (by norm_num)
  have e98 : ((98 : ℤ) : ℚ) = (98 : ℚ) := by norm_num
  have e110 : ((110 : ℤ) : ℚ) = (110 : ℚ) := by norm_num
  rw [e98, e110] at h
  exact ⟨h.2.2.1, h.1, h.2.1⟩

/-- **C1, amended, witness** at current = 1,150,000, baseline = 1,000,000:
ratio 115 % is classified with the red marker. -/
theorem claim_C1_amended_witness :
    (JsVal.ofInt 1150000).den ≠ 0 ∧ 0 < (JsVal.ofInt 1000000).toRat ∧
    getCompareColumnBytes (JsVal.ofInt 1150000) (some (JsVal.ofInt 1000000))
        (JsVal.ofInt 98) (JsVal.ofInt 110) =
      compareCellShell "" ""
        (markedLine ":red_circle:"
          (compareColumnBytesPayload (JsVal.ofInt 1150000) (JsVal.ofInt 1000000))) :=
  ⟨by decide, by norm_num [JsVal.toRat, JsVal.ofInt],
    (claim_C1_amended.1 (JsVal.ofInt 1150000) (JsVal.ofInt 1000000) (by decide) (by decide)
        (by norm_num [JsVal.toRat, JsVal.ofInt])).1
      (by norm_num [JsVal.toRat, JsVal.ofInt])⟩

/-- **C2, counterexample.**  The claim says a ratio exactly equal to
`lowerBound` yields a neutral cell that still carries the delta and the
percentage.  At `current = 98`, `baseline = 100`, bounds `(98, 108)` the
ratio is exactly 98 and the rendered cell is empty: it carries no
percentage (no `%` occurs in it) and no delta. -/
theorem claim_C2_counterexample :
    (98 : ℚ) / 100 * 100 = 98 ∧
    getCompareColumn (JsVal.ofInt 98) (some (JsVal.ofInt 100)) (JsVal.ofInt 98)
      (JsVal.ofInt 108) = compareCellShell "" "" "" ∧
    strHasSub
      (getCompareColumn (JsVal.ofInt 98) (some (JsVal.ofInt 100)) (JsVal.ofInt 98)
        (JsVal.ofInt 108)) "%" = false :=
  ⟨by norm_num, by decide, by decide⟩

/-- **C2, amended.**  For a finite current value, a finite baseline > 0 and
integer bounds with `lowerBound < upperBound`, the classifier renders
exactly one of four mutually exclusive shapes over
`ratio = current / baseline · 100`: strictly below `lowerBound` the marked
verdict-A cell, strictly between the bounds the unmarked cell carrying
delta and percentage, strictly above `upperBound` the marked verdict-B
cell — and at a ratio exactly equal to either bound an empty cell carrying
neither a marker nor the delta/percentage. -/
theorem claim_C2_amended (v cv : JsVal) (lo hi : ℤ)
    (hv : v.den ≠ 0) (hcv : cv.den ≠ 0) (hpos : 0 < cv.toRat) (hlh : (lo : ℚ) < hi) :
    (v.toRat / cv.toRat * 100 < lo →
      getCompareColumn v (some cv) (JsVal.ofInt lo) (JsVal.ofInt hi) =
        compareCellShell (markedLine ":green_circle:" (compareColumnPayload v cv)) "" "") ∧
    ((lo : ℚ) < v.toRat / cv.toRat * 100 ∧ v.toRat / cv.toRat * 100 < hi →
      getCompareColumn v (some cv) (JsVal.ofInt lo) (JsVal.ofInt hi) =
        compareCellShell "" (compareColumnPayload v cv) "") ∧
    ((hi : ℚ) < v.toRat / cv.toRat * 100 →
      getCompareColumn v (some cv) (JsVal.ofInt lo) (JsVal.ofInt hi) =
        compareCellShell "" "" (markedLine ":red_circle:" (compareColumnPayload v cv))) ∧
    (v.toRat / cv.toRat * 100 = lo ∨ v.toRat / cv.toRat * 100 = hi →
      getCompareColumn v (some cv) (JsVal.ofInt lo) (JsVal.ofInt hi) =
        compareCellShell "" "" "") :=
  getCompareColumn_band_cases v cv lo hi hv hcv hpos hlh

/-- **C2, amended, witness** at current = 95, baseline = 100,
bounds (98, 108): ratio 95 % is the marked verdict-A cell. -/
theorem claim_C2_amended_witness :
    getCompareColumn (JsVal.ofInt 95) (some (JsVal.ofInt 100)) (JsVal.ofInt 98)
        (JsVal.ofInt 108) =
      compareCellShell
        (markedLine ":green_circle:"
          (compareColumnPayload (JsVal.ofInt 95) (JsVal.ofInt 100))) "" "" :=
  (claim_C2_amended (JsVal.ofInt 95) (JsVal.ofInt 100) 98 108 (by decide) (by decide)
      (by norm_num [JsVal.toRat, JsVal.ofInt]) (by norm_num)).1
    (by norm_num [JsVal.toRat, JsVal.ofInt])

/-- **C3.**  Contrary to the claim, the zero-denominator cases are not
guarded: `toPercent` with a zero total renders `Infinity%` (or `NaN%`),
`getDiffPercent` with a zero baseline renders `+Infinity%`, and the
threshold classifier with a zero baseline produces a *marked* (regressed)
cell containing `Infinity`, not a neutral/unclassifiable one. -/
theorem claim_C3_zero_denominator_behavior :
    toPercent (jsNum 5) (jsNum 0) = "Infinity%" ∧
    toPercent (jsNum 0) (jsNum 0) = "NaN%" ∧
    getDiffPercent (jsNum 0) (jsNum 100) = "+Infinity%" ∧
    getCompareColumn (jsNum 5) (some (jsNum 0)) (JsVal.ofInt 98) (JsVal.ofInt 108) =
      compareCellShell "" ""
        (markedLine ":red_circle:" (compareColumnPayload (jsNum 5) (jsNum 0))) ∧
    strHasSub
      (getCompareColumn (jsNum 5) (some (jsNum 0)) (JsVal.ofInt 98) (JsVal.ofInt 108))
      "Infinity" = true :=
  ⟨by decide, by decide, by decide, by decide, by decide⟩

/-- **C4.**  In the single-report path the "Types" fallback behaves as
claimed (`selectAnalysisTypes` of a snapshot without `types` is its
`classes`), but in the chart comparison the base snapshot's selector tests
the *current* snapshot's `types` field: when the current snapshot has
`types` and the baseline does not, the selector yields `undefined` and
`createPRComparison` throws while rendering the analysis chart (modelled
as `none`) instead of rendering the baseline's `classes` values; and when
only the baseline has `types`, its own `types` category is ignored in
favour of its `classes`. -/
theorem claim_C4_types_fallback_behavior :
    selectAnalysisTypes analysisWithoutTypes = analysisWithoutTypes.classes ∧
    analysisTypesBaseSel analysisWithTypes analysisWithoutTypes = none ∧
    createPRComparison snapshotWithTypes snapshotWithoutTypes (some "main") (some "feature")
      "analysis results" = none ∧
    analysisTypesBaseSel analysisWithoutTypes analysisWithTypes =
      some analysisWithTypes.classes :=
  ⟨by decide, by decide, by decide, by decide⟩

set_option maxRecDepth 1000000 in
/-- **C5.**  In the single-snapshot report (and tabular comparison) the
derived other-data bytes are the snapshot's own
`total − codeArea − imageHeap − debugInfo` (for 1000/400/300/100 this is
200, and the four rows sum to the total), but the chart comparison
computes the *current* snapshot's debug-info bytes from the *baseline*
snapshot: with a current snapshot carrying 100 debug-info bytes and a
baseline without debug info, `otherBytesRecent` is 300 instead of 200, and
the rendered Image Details chart shows `300.00B` and no `200.00B`. -/
theorem claim_C5_other_bytes_behavior :
    otherBytesOf detailsWithDebug = 200 ∧
    detailsWithDebug.code_area.bytes + detailsWithDebug.image_heap.bytes +
        debugInfoBytesOf detailsWithDebug + otherBytesOf detailsWithDebug =
      detailsWithDebug.total_bytes ∧
    otherBytesRecentPR detailsWithDebug detailsNoDebug = 300 ∧
    (createPRComparison snapshotWithTypes snapshotWithoutTypes (some "main") (some "feature")
        "image details").any (fun s => strHasSub s "(300.00B): active") = true ∧
    (createPRComparison snapshotWithTypes snapshotWithoutTypes (some "main") (some "feature")
        "image details").any (fun s => strHasSub s "200.00B") = false :=
  ⟨by decide, by decide, by decide, by decide, by decide⟩

/-- **C6.**  `bytesToHuman` selects its unit by the binary thresholds
1024, 1024², 1024³ applied to the absolute value, scaling by the chosen
unit with two decimal places (it agrees with the spec-worded
`bytesToHumanSpec` on every finite value); 1023 renders in unit B, 1024 in
KB, 1024² in MB, 1024³ in GB; and every finite negative input renders with
a leading minus sign. -/
theorem claim_C6_bytesToHuman :
    (∀ b : JsVal, b.den ≠ 0 → bytesToHuman b = bytesToHumanSpec b) ∧
    bytesToHuman (JsVal.ofInt 1023) = "1023.00B" ∧
    bytesToHuman (JsVal.ofInt 1024) = "1.00KB" ∧
    bytesToHuman (JsVal.ofInt (1024 * 1024)) = "1.00MB" ∧
    bytesToHuman (JsVal.ofInt (1024 * 1024 * 1024)) = "1.00GB" ∧
    (∀ b : JsVal, b.den ≠ 0 → b.toRat < 0 → ∃ r, bytesToHuman b = "-" ++ r) := by
  refine ⟨fun b hb => ?_, by decide, by decide, by decide, by decide, fun b hb hneg => ?_⟩
  · have habs : (JsVal.abs b).den ≠ 0 := hb
    have h1 : JsVal.lt (JsVal.abs b) (JsVal.ofInt 1024) = decide (|b.toRat| < 1024) := by
      rw [JsVal.lt_eq_decide habs one_ne_zero, JsVal.toRat_abs, JsVal.toRat_ofInt]
      rw [decide_eq_decide]
      norm_num
    have h2 : JsVal.lt (JsVal.abs b) (JsVal.ofInt 1048576) =
        decide (|b.toRat| < 1024 ^ 2) := by
      rw [JsVal.lt_eq_decide habs one_ne_zero, JsVal.toRat_abs, JsVal.toRat_ofInt]
      rw [decide_eq_decide]
      norm_num
    have h3 : JsVal.lt (JsVal.abs b) (JsVal.ofInt 1073741824) =
        decide (|b.toRat| < 1024 ^ 3) := by
      rw [JsVal.lt_eq_decide habs one_ne_zero, JsVal.toRat_abs, JsVal.toRat_ofInt]
      rw [decide_eq_decide]
      norm_num
    unfold bytesToHuman bytesToHumanSpec BYTES_TO_KiB BYTES_TO_MiB BYTES_TO_GiB
    by_cases hc1 : |b.toRat| < 1024
    · simp [h1, hc1]
    · by_cases hc2 : |b.toRat| < 1024 ^ 2
      · simp [h1, h2, hc1, hc2]
      · by_cases hc3 : |b.toRat| < 1024 ^ 3
        · simp [h1, h2, h3, hc1, hc2, hc3]
        · simp [h1, h2, h3, hc1, hc2, hc3]
  · have hnum : b.num < 0 := by
      by_contra hge
      push_neg at hge
      have hd : (0 : ℚ) ≤ (b.den : ℚ) := by positivity
      have : (0 : ℚ) ≤ b.toRat :=
        div_nonneg (by exact_mod_cast hge) hd
      exact absurd hneg (not_lt.mpr this)
    have key : ∀ (x : JsVal) (u : String), x.den ≠ 0 → x.num < 0 →
        ∃ r, jsToFixed x 2 ++ u = "-" ++ r := by
      intro x u hxd hxn
      refine ⟨String.mk (jsToFixedMagCore x.num.natAbs x.den 2) ++ u, ?_⟩
      unfold jsToFixed
      rw [if_neg hxd, if_pos hxn, String.append_assoc]
    have hdiv_num : ∀ k : ℤ, 0 ≤ k → (JsVal.div b (JsVal.ofInt k)).num = b.num := by
      intro k hk
      unfold JsVal.div JsVal.ofInt
      rw [if_neg (not_lt.mpr hk)]
      simp
    have hdiv_den : ∀ k : ℤ, k ≠ 0 → (JsVal.div b (JsVal.ofInt k)).den ≠ 0 := by
      intro k hk
      unfold JsVal.div JsVal.ofInt
      split <;> simpa using ⟨hb, hk⟩
    unfold bytesToHuman BYTES_TO_KiB BYTES_TO_MiB BYTES_TO_GiB
    split_ifs
    · exact key b "B" hb hnum
    · refine key _ "KB" (hdiv_den 1024 (by norm_num)) ?_
      rw [hdiv_num 1024 (by norm_num)]
      exact hnum
    · refine key _ "MB" (hdiv_den (1024 * 1024) (by norm_num)) ?_
      rw [hdiv_num (1024 * 1024) (by norm_num)]
      exact hnum
    · refine key _ "GB" (hdiv_den (1024 * 1024 * 1024) (by norm_num)) ?_
      rw [hdiv_num (1024 * 1024 * 1024) (by norm_num)]
      exact hnum

/-- **C6, witness** at −5 bytes: the spec agreement and the preserved
sign, with the hypotheses discharged at the concrete input. -/
theorem claim_C6_bytesToHuman_witness :
    (JsVal.ofInt (-5)).den ≠ 0 ∧ (JsVal.ofInt (-5)).toRat < 0 ∧
    bytesToHuman (JsVal.ofInt (-5)) = bytesToHumanSpec (JsVal.ofInt (-5)) ∧
    (∃ r, bytesToHuman (JsVal.ofInt (-5)) = "-" ++ r) :=
  ⟨by decide, by norm_num [JsVal.toRat, JsVal.ofInt],
    claim_C6_bytesToHuman.1 (JsVal.ofInt (-5)) (by decide),
    claim_C6_bytesToHuman.2.2.2.2.2 (JsVal.ofInt (-5)) (by decide)
      (by norm_num [JsVal.toRat, JsVal.ofInt])⟩

/-- **C7.**  `getDiffPercent` has prefix `+` exactly when
`current ≥ baseline` and `-` otherwise (it agrees with the spec-worded
`diffPercentSpec` on finite values), the value it formats to three
decimals is exactly `|current − baseline| / baseline · 100`, and
`getDiffPercent(100, 150) = "+50.000%"`,
`getDiffPercent(150, 100) = "-33.333%"`. -/
theorem claim_C7_diffPercent :
    (∀ baseValue recentValue : JsVal, baseValue.den ≠ 0 → recentValue.den ≠ 0 →
      getDiffPercent baseValue recentValue = diffPercentSpec baseValue recentValue) ∧
    (∀ baseValue recentValue : JsVal, baseValue.den ≠ 0 → recentValue.den ≠ 0 →
      (JsVal.mul (JsVal.div (JsVal.abs (JsVal.sub recentValue baseValue)) baseValue)
          (JsVal.ofInt 100)).toRat =
        |recentValue.toRat - baseValue.toRat| / baseValue.toRat * 100) ∧
    getDiffPercent (JsVal.ofInt 100) (JsVal.ofInt 150) = "+50.000%" ∧
    getDiffPercent (JsVal.ofInt 150) (JsVal.ofInt 100) = "-33.333%" := by
  refine ⟨fun b r hb hr => ?_, fun b r hb hr => ?_, by decide, by decide⟩
  · unfold getDiffPercent diffPercentSpec
    rw [JsVal.lt_eq_decide hr hb]
    by_cases h : r.toRat < b.toRat
    · simp [h, not_le.mpr h]
    · simp [h, not_lt.mp h]
  · rw [JsVal.toRat_mul, JsVal.toRat_div, JsVal.toRat_abs, JsVal.toRat_sub hr hb,
      JsVal.toRat_ofInt]
    norm_num

/-- **C7, witness** at baseline = 100, current = 150. -/
theorem claim_C7_diffPercent_witness :
    (JsVal.ofInt 100).den ≠ 0 ∧
    getDiffPercent (JsVal.ofInt 100) (JsVal.ofInt 150) =
      diffPercentSpec (JsVal.ofInt 100) (JsVal.ofInt 150) :=
  ⟨by decide, claim_C7_diffPercent.1 (JsVal.ofInt 100) (JsVal.ofInt 150) (by decide) (by decide)⟩

/-- **C8.**  For finite non-negative seconds, `secondsToHuman` agrees with
the spec-worded `secondsToHumanSpec` (`"{s:.1f}s"` below one minute,
otherwise `"{floor(s/60)}m {floor(s mod 60)}s"`); in particular 59.9
seconds render as `59.9s` and 125 seconds as `2m 5s`. -/
theorem claim_C8_secondsToHuman :
    (∀ s : JsVal, s.den ≠ 0 → 0 ≤ s.toRat → secondsToHuman s = secondsToHumanSpec s) ∧
    secondsToHuman ⟨599, 10⟩ = "59.9s" ∧
    secondsToHuman (JsVal.ofInt 125) = "2m 5s" := by
  refine ⟨fun s hd h0 => ?_, by decide, by decide⟩
  have hlt : JsVal.lt s (JsVal.ofInt 60) = decide (s.toRat < 60) := by
    rw [JsVal.lt_eq_decide hd one_ne_zero, JsVal.toRat_ofInt]
    rw [decide_eq_decide]
    norm_num
  have hdiv_den : (JsVal.div s (JsVal.ofInt 60)).den ≠ 0 := by
    unfold JsVal.div JsVal.ofInt
    split <;> simpa using hd
  have hdiv_rat : (JsVal.div s (JsVal.ofInt 60)).toRat = s.toRat / 60 := by
    rw [JsVal.toRat_div, JsVal.toRat_ofInt]
    norm_num
  have hA : (JsVal.div s (JsVal.ofInt 60)).trunc = ⌊s.toRat / 60⌋ := by
    rw [JsVal.trunc_eq_floor hdiv_den (by rw [hdiv_rat]; positivity), hdiv_rat]
  have hq_den : (JsVal.mul (JsVal.ofInt 60)
      (JsVal.ofInt ((JsVal.div s (JsVal.ofInt 60)).trunc))).den = 1 := rfl
  have hmod_den : (JsVal.mod s (JsVal.ofInt 60)).den ≠ 0 := by
    unfold JsVal.mod JsVal.sub
    simpa [hq_den] using hd
  have hmod_rat : (JsVal.mod s (JsVal.ofInt 60)).toRat =
      s.toRat - 60 * (⌊s.toRat / 60⌋ : ℚ) := by
    unfold JsVal.mod
    rw [JsVal.toRat_sub hd (by rw [hq_den]; exact one_ne_zero)]
    rw [JsVal.toRat_mul, JsVal.toRat_ofInt, JsVal.toRat_ofInt, hA]
    norm_num
  have hmod_nonneg : 0 ≤ (JsVal.mod s (JsVal.ofInt 60)).toRat := by
    rw [hmod_rat]
    have hfl : (⌊s.toRat / 60⌋ : ℚ) ≤ s.toRat / 60 := Int.floor_le _
    have h60 : (60 : ℚ) * (s.toRat / 60) = s.toRat := by field_simp
    nlinarith [hfl]
  have hB : (JsVal.mod s (JsVal.ofInt 60)).trunc =
      ⌊s.toRat - 60 * (⌊s.toRat / 60⌋ : ℚ)⌋ := by
    rw [JsVal.trunc_eq_floor hmod_den hmod_nonneg, hmod_rat]
  unfold secondsToHuman secondsToHumanSpec
  by_cases hc : s.toRat < 60
  · simp [hlt, hc]
  · simp only [hlt, hc, decide_False, Bool.false_eq_true, if_false, if_neg]
    unfold jsIntRepr
    rw [hA, hB]

/-- **C8, witness** at 125 seconds. -/
theorem claim_C8_secondsToHuman_witness :
    (JsVal.ofInt 125).den ≠ 0 ∧ 0 ≤ (JsVal.ofInt 125).toRat ∧
    secondsToHuman (JsVal.ofInt 125) = secondsToHumanSpec (JsVal.ofInt 125) :=
  ⟨by decide, by norm_num [JsVal.toRat, JsVal.ofInt],
    claim_C8_secondsToHuman.1 (JsVal.ofInt 125) (by decide)
      (by norm_num [JsVal.toRat, JsVal.ofInt])⟩

/-- **C9.**  Whenever report generation is enabled (job reports or PR
reports) and the telemetry build-output file is absent, `generateReports`
issues exactly the missing-data warning and performs nothing else: no
summary is written, no PR comment is created, no snapshot is stored, and
nothing is parsed or thrown. -/
theorem claim_C9_missing_telemetry (env : ReportsEnv)
    (henabled : areJobReportsEnabled env = true ∨ arePRReportsEnabled env = true)
    (hfile : env.buildOutputFileExists = false) :
    generateReports env =
      { warnings := [MISSING_BUILD_OUTPUT_WARNING], summaryWritten := none,
        prComments := [], storedSnapshot := none, crashed := false } := by
  unfold generateReports
  have h1 : (areJobReportsEnabled env || arePRReportsEnabled env) = true := by
    rcases henabled with h | h <;> simp [h]
  simp [h1, hfile]

/-- **C9, witness**: an environment with job reports enabled and the
telemetry file absent. -/
theorem claim_C9_missing_telemetry_witness :
    areJobReportsEnabled sampleEnvMissingFile = true ∧
    sampleEnvMissingFile.buildOutputFileExists = false ∧
    generateReports sampleEnvMissingFile =
      { warnings := [MISSING_BUILD_OUTPUT_WARNING], summaryWritten := none,
        prComments := [], storedSnapshot := none, crashed := false } :=
  ⟨by decide, by decide,
    claim_C9_missing_telemetry sampleEnvMissingFile (Or.inl (by decide)) (by decide)⟩

set_option maxRecDepth 1000000 in
/-- **C10.**  In both the Analysis Results table and the Image Details
table the percent cell of the final Loaded/Total row is the hardcoded
literal `100.000%`, for every input — including inputs whose totals are
all zero, where the computed percent cells of the other rows render
`NaN%` (since `toPercent 0 0 = "NaN%"`), while the Loaded/Total percent
cells still read `100.000%`. -/
theorem claim_C10_hardcoded_total_percent :
    (∀ (analysis : analysisResults) (analysisTypes : AnalysisResult)
        (cA : Option analysisResults) (cAT : Option AnalysisResult) (cb : Option String),
      strHasSub (getAnalysisTable analysis analysisTypes cA cAT cb) "100.000%" = true) ∧
    (∀ (details : ImageDetails) (objectCount debugInfoLine : String) (otherBytes : ℤ)
        (cd : Option ImageDetails) (cb : Option String) (cob : Option ℤ),
      strHasSub (getDetailsTable details objectCount debugInfoLine otherBytes cd cb cob)
        "100.000%" = true) ∧
    toPercent (jsNum 0) (jsNum 0) = "NaN%" ∧
    strHasSub (getAnalysisTable zeroAnalysis (selectAnalysisTypes zeroAnalysis) none none none)
      "NaN%" = true ∧
    strHasSub (getAnalysisTable zeroAnalysis (selectAnalysisTypes zeroAnalysis) none none none)
      "100.000%" = true ∧
    strHasSub (getDetailsTable zeroDetails "" "" (otherBytesOf zeroDetails) none none none)
      "100.000%" = true := by
  refine ⟨fun analysis analysisTypes cA cAT cb => ?_, fun d oc dl ob cd cb cob => ?_,
    by decide, by decide, by decide, by decide⟩
  · unfold getAnalysisTable
    apply strHasSub_appendL
    apply strHasSub_appendR
    unfold analysisLoadedRow
    apply strHasSub_appendL
    apply strHasSub_appendL
    apply strHasSub_appendR
    decide
  · unfold getDetailsTable
    apply strHasSub_appendL
    apply strHasSub_appendL
    apply strHasSub_appendR
    decide
